import Mathlib

/-!
# Verification of the Genesis physics session server

Shallow embedding of `src/backend/src/physics-server/genesis_server.py` and
`src/backend/src/physics-server/bio_templates.py`.

Python dictionaries are modelled as insertion-ordered association lists with
Python `dict` semantics: assigning to an existing key replaces the value in
place, assigning to a fresh key appends, `del` removes the entry, `len` is the
number of entries.  Mutable Python objects shared between the engine scene and
the registry (genesis `Body` objects) are modelled by a heap keyed by engine
handle (`Nat`); the registry maps identifier strings to handles, exactly as the
Python registry holds references into the engine's object store.

Machine floats appear only as inert payload (masses, positions, stiffness):
no claim depends on a float value, and `Float` operations are never reduced.
Fallible Python code (raised exceptions) is modelled with `Except`: an
exception propagates the state reached at the raise point, mirroring the fact
that Python mutations performed before a `raise` persist.
-/

/-! ## Association lists with Python dict semantics -/

/-- `d.get k` / `k in d` lookup: first (and, for lists built by `dictInsert`,
only) binding of `k`. -/
def dictLookup {β : Type} (k : String) : List (String × β) → Option β
  | [] => none
  | (k', v) :: rest => if k' == k then some v else dictLookup k rest

/-- `k in d`. -/
def dictMem {β : Type} (k : String) (l : List (String × β)) : Bool :=
  (dictLookup k l).isSome

/-- `d[k] = v`: replace in place if the key is present, append otherwise. -/
def dictInsert {β : Type} (k : String) (v : β) : List (String × β) → List (String × β)
  | [] => [(k, v)]
  | (k', v') :: rest =>
      if k' == k then (k', v) :: rest else (k', v') :: dictInsert k v rest

/-- `del d[k]`. -/
def dictErase {β : Type} (k : String) : List (String × β) → List (String × β)
  | [] => []
  | (k', v') :: rest => if k' == k then rest else (k', v') :: dictErase k rest

/-- In-place mutation of the object stored under key `k` (attribute update on
a shared Python object). -/
def dictUpdate {β : Type} (k : String) (f : β → β) : List (String × β) → List (String × β)
  | [] => []
  | (k', v') :: rest =>
      if k' == k then (k', f v') :: rest else (k', v') :: dictUpdate k f rest

/-- The keys of an association list, in order. -/
def dkeys {β : Type} (l : List (String × β)) : List String := l.map Prod.fst

/-- Heap variant, keyed by engine handles. -/
def heapLookup {β : Type} (k : Nat) : List (Nat × β) → Option β
  | [] => none
  | (k', v) :: rest => if k' == k then some v else heapLookup k rest

/-- Heap variant of `dictUpdate`. -/
def heapUpdate {β : Type} (k : Nat) (f : β → β) : List (Nat × β) → List (Nat × β)
  | [] => []
  | (k', v') :: rest =>
      if k' == k then (k', f v') :: rest else (k', v') :: heapUpdate k f rest

/-! ## Data model -/

/-- Free-form JSON-ish metadata values (`metadata` dicts in body specs). -/
inductive MVal : Type where
  | s (v : String)
  | f (v : Float)
  | n (v : Nat)
  | arr (l : List MVal)

/-- Geometry of a created engine body (`scene.add_sphere` / `scene.add_box`). -/
inductive Shape : Type where
  | sphere (radius : Float)
  | box (size : List Float)

/-- A genesis engine body object.  `engineId` is the engine handle (Python
object identity); `forces` records the `add_force` calls received. -/
structure Body : Type where
  engineId : Nat
  shape : Shape
  mass : Float
  position : List Float
  velocity : List Float := [0.0, 0.0, 0.0]
  forces : List (List Float) := []
  metadata : List (String × MVal) := []

/-- A genesis spring constraint object (`scene.add_spring`): it references the
two endpoint body objects (by engine handle) and its parameters. -/
structure Spring : Type where
  bodyA : Nat
  bodyB : Nat
  stiffness : Float
  damping : Float
  restLength : Float

/-- The mutable state of `GenesisPhysicsServer`: the engine scene (heap of
body objects, list of scene body handles, list of created springs, next fresh
handle), the registry dicts `self.bodies` / `self.constraints`, the WebSocket
connection list and the running flag. -/
structure ServerState : Type where
  heap : List (Nat × Body) := []
  sceneBodyIds : List Nat := []
  sceneSprings : List Spring := []
  nextEngineId : Nat := 0
  bodies : List (String × Nat) := []
  constraints : List (String × Spring) := []
  active_connections : List Nat := []
  is_running : Bool := false

/-- The freshly initialised server: empty registry, empty scene. -/
def s0 : ServerState := {}

/-- Python exception kinds that the modelled code can raise. -/
inductive Err : Type where
  | nameError (localVar : String)
  | attributeError (attr : String)
  | typeError (what : String)
  | valueError (what : String)
deriving DecidableEq

/-- State+exception monad shape: a Python method call maps a state to a result
(normal return or raised exception) together with the state at exit.  Unlike
`Except`-only models, the state reached before a `raise` is preserved. -/
def M (α : Type) : Type := ServerState → Except Err α × ServerState

/-- Normal return. -/
def mpure {α : Type} (a : α) : M α := fun s => (.ok a, s)

/-- Sequencing with exception propagation. -/
def mbind {α β : Type} (x : M α) (f : α → M β) : M β := fun s =>
  match x s with
  | (.ok a, s') => f a s'
  | (.error e, s') => (.error e, s')

/-- Sequencing that discards the first result. -/
def mseq {α β : Type} (x : M α) (y : M β) : M β := mbind x (fun _ => y)

/-! ## Entity registry operations (`genesis_server.py`) -/

/-- The body spec dict accepted by `GenesisPhysicsServer.add_body`; absent
keys are `none` and the source's `config.get(key, default)` defaults are
applied inside `add_body` itself. -/
structure BodyCfg : Type where
  id : Option String := none
  type : Option String := none
  radius : Option Float := none
  size : Option (List Float) := none
  mass : Option Float := none
  position : Option (List Float) := none
  metadata : Option (List (String × MVal)) := none

/-- `GenesisPhysicsServer.add_body` (genesis_server.py:263-301).

```python
body_id = config.get("id", f"body_{len(self.bodies)}")
body_type = config.get("type", "sphere")
try:
    if body_type == "sphere": ... body = self.scene.add_sphere(...)
    elif body_type == "box":  ... body = self.scene.add_box(...)
    body.metadata = config.get("metadata", {})
    self.bodies[body_id] = body
    return body_id
except Exception as e: ... raise
```

For any other `body_type` the local `body` is never bound, so the
`body.metadata` line raises `UnboundLocalError` (a `NameError`), which the
`except` block re-raises; nothing has been mutated at that point.  There is no
duplicate-identifier check: the dict assignment overwrites an existing entry.
-/
def add_body (config : BodyCfg) : M String := fun s =>
  let body_id := config.id.getD ("body_" ++ Nat.repr s.bodies.length)
  let body_type := config.type.getD "sphere"
  if body_type == "sphere" then
    let radius := config.radius.getD 1.0
    let mass := config.mass.getD 1.0
    let position := config.position.getD [0.0, 0.0, 0.0]
    -- body = self.scene.add_sphere(radius=..., mass=..., position=...)
    let eid := s.nextEngineId
    let body : Body := { engineId := eid, shape := .sphere radius, mass := mass,
                         position := position }
    let s := { s with heap := s.heap ++ [(eid, body)],
                      sceneBodyIds := s.sceneBodyIds ++ [eid],
                      nextEngineId := eid + 1 }
    -- body.metadata = config.get("metadata", {})
    let s := { s with heap := heapUpdate eid
                        (fun b => { b with metadata := config.metadata.getD [] }) s.heap }
    -- self.bodies[body_id] = body
    (.ok body_id, { s with bodies := dictInsert body_id eid s.bodies })
  else if body_type == "box" then
    let size := config.size.getD [1.0, 1.0, 1.0]
    let mass := config.mass.getD 1.0
    let position := config.position.getD [0.0, 0.0, 0.0]
    let eid := s.nextEngineId
    let body : Body := { engineId := eid, shape := .box size, mass := mass,
                         position := position }
    let s := { s with heap := s.heap ++ [(eid, body)],
                      sceneBodyIds := s.sceneBodyIds ++ [eid],
                      nextEngineId := eid + 1 }
    let s := { s with heap := heapUpdate eid
                        (fun b => { b with metadata := config.metadata.getD [] }) s.heap }
    (.ok body_id, { s with bodies := dictInsert body_id eid s.bodies })
  else
    -- `body` was never assigned: `body.metadata = ...` raises UnboundLocalError,
    -- logged and re-raised by the except block; no state was mutated.
    (.error (.nameError "body"), s)

/-- `GenesisPhysicsServer.remove_body` (genesis_server.py:303-312).

```python
if body_id in self.bodies:
    self.scene.remove_body(self.bodies[body_id])
    del self.bodies[body_id]
```

An absent identifier is a silent no-op (no `NotFound` error), and constraints
are not touched (no cascading delete). -/
def remove_body (body_id : String) : M Unit := fun s =>
  match dictLookup body_id s.bodies with
  | some eid =>
      let s := { s with sceneBodyIds := s.sceneBodyIds.erase eid }
      (.ok (), { s with bodies := dictErase body_id s.bodies })
  | none => (.ok (), s)

/-- The constraint spec dict accepted by `add_constraint`. -/
structure ConstraintCfg : Type where
  id : Option String := none
  type : Option String := none
  body_a : Option String := none
  body_b : Option String := none
  stiffness : Option Float := none
  damping : Option Float := none
  rest_length : Option Float := none
  metadata : Option (List (String × MVal)) := none

/-- `GenesisPhysicsServer.add_constraint` (genesis_server.py:314-342).

```python
constraint_id = config.get("id", f"constraint_{len(self.constraints)}")
constraint_type = config.get("type", "spring")
if constraint_type == "spring":
    ...
    if body_a_id in self.bodies and body_b_id in self.bodies:
        constraint = self.scene.add_spring(...)
        self.constraints[constraint_id] = constraint
return constraint_id
```

When either endpoint is missing (or the type is not "spring") nothing is
created and no error is raised: the id is still returned as a success. -/
def add_constraint (config : ConstraintCfg) : M String := fun s =>
  let constraint_id := config.id.getD ("constraint_" ++ Nat.repr s.constraints.length)
  let constraint_type := config.type.getD "spring"
  if constraint_type == "spring" then
    let stiffness := config.stiffness.getD 100.0
    let damping := config.damping.getD 1.0
    let rest_length := config.rest_length.getD 1.0
    match config.body_a.bind (fun a => dictLookup a s.bodies),
          config.body_b.bind (fun b => dictLookup b s.bodies) with
    | some ea, some eb =>
        let spring : Spring := { bodyA := ea, bodyB := eb, stiffness := stiffness,
                                 damping := damping, restLength := rest_length }
        let s := { s with sceneSprings := s.sceneSprings ++ [spring] }
        (.ok constraint_id, { s with constraints := dictInsert constraint_id spring s.constraints })
    | _, _ => (.ok constraint_id, s)
  else
    (.ok constraint_id, s)

/-! ## Command router (`handle_client_message`, genesis_server.py:159-179) -/

/-- An inbound client message: the `type` discriminator plus the optional
fields the recognised commands read. -/
structure ClientMsg : Type where
  type : Option String := none
  body_id : Option String := none
  force : Option (List Float) := none
  position : Option (List Float) := none
  velocity : Option (List Float) := none

/-- `GenesisPhysicsServer.handle_client_message`: dispatch on `message.get
("type")`; recognised types mutate the addressed body object if it exists;
everything else falls through silently.  The second component is the list of
messages sent back to the originating client over its socket: the function
contains no send call, so it is always empty. -/
def handle_client_message (message : ClientMsg) : ServerState → ServerState × List String :=
  fun s =>
  if message.type == some "apply_force" then
    match message.body_id.bind (fun b => dictLookup b s.bodies) with
    | some eid =>
        let force := message.force.getD [0.0, 0.0, 0.0]
        ({ s with heap := heapUpdate eid (fun b => { b with forces := b.forces ++ [force] }) s.heap }, [])
    | none => (s, [])
  else if message.type == some "set_position" then
    match message.body_id.bind (fun b => dictLookup b s.bodies) with
    | some eid =>
        let position := message.position.getD [0.0, 0.0, 0.0]
        ({ s with heap := heapUpdate eid (fun b => { b with position := position }) s.heap }, [])
    | none => (s, [])
  else if message.type == some "set_velocity" then
    match message.body_id.bind (fun b => dictLookup b s.bodies) with
    | some eid =>
        let velocity := message.velocity.getD [0.0, 0.0, 0.0]
        ({ s with heap := heapUpdate eid (fun b => { b with velocity := velocity }) s.heap }, [])
    | none => (s, [])
  else
    (s, [])

/-! ## Session broadcaster (`broadcast_update`, genesis_server.py:245-261)

The snapshot payload is irrelevant to delivery; what matters is which channel
send succeeds.  `fails c = true` models `connection.send_text` raising for
channel `c` during this broadcast. -/

/-- The send loop: try each connection in order, collecting the channels that
received the message and the channels whose send raised (`disconnected`). -/
def sendAttempts (fails : Nat → Bool) : List Nat → List Nat × List Nat
  | [] => ([], [])
  | c :: rest =>
      let (sent, disc) := sendAttempts fails rest
      if fails c then (sent, c :: disc) else (c :: sent, disc)

/-- The removal loop: `for conn in disconnected: if conn in
self.active_connections: self.active_connections.remove(conn)`. -/
def pruneDisconnected (disc : List Nat) (conns : List Nat) : List Nat :=
  disc.foldl (fun acc c => if acc.contains c then acc.erase c else acc) conns

/-- `GenesisPhysicsServer.broadcast_update`: returns the updated state and the
list of channels that received this snapshot. -/
def broadcast_update (fails : Nat → Bool) : ServerState → ServerState × List Nat :=
  fun s =>
  let (sent, disc) := sendAttempts fails s.active_connections
  ({ s with active_connections := pruneDisconnected disc s.active_connections }, sent)

/-! ## Decimal representation: `Nat.repr` is injective and underscore-free

The registry's fallback identifiers (`body_<n>`, `constraint_<n>`) and the
template identifiers (`surface_point_<i>_<j>`, `dna_base1_<i>`, ...) are
f-strings over decimal renderings of naturals; freshness of those keys reduces
to injectivity of the decimal rendering. -/

/-- The decimal digit list of `n`, most significant first: a structurally
recursive reformulation of core's fuelled `Nat.toDigitsCore`. -/
def digs (n : Nat) : List Char :=
  if h : n < 10 then [Nat.digitChar (n % 10)]
  else digs (n / 10) ++ [Nat.digitChar (n % 10)]
decreasing_by
  exact Nat.div_lt_self (by omega) (by omega)

/-! ## Structure generator (`bio_templates.py`)

Template parameter dicts are modelled as one record of optional fields (a
Python dict: generators read their own keys with `params.get(key, default)`
and ignore the rest).  The `equations` parameter of the parametric surface is
a dict of expression strings that the source applies with Python `eval`; it
is modelled as a triple of float functions, defaulting to the source's
default torus equations. -/

/-- Parametric-surface equations (`params['equations']`, applied via `eval`). -/
structure SurfEqs : Type where
  x : Float → Float → Float
  y : Float → Float → Float
  z : Float → Float → Float

/-- The default equations of `create_parametric_surface`. -/
def defaultEqs : SurfEqs where
  x := fun u v => Float.cos u * (3.0 + Float.cos v)
  y := fun u v => Float.sin u * (3.0 + Float.cos v)
  z := fun _ v => Float.sin v

/-- A template parameter dict (only the keys read by the modelled
generators). -/
structure Params : Type where
  base_pairs : Option Nat := none
  radius : Option Float := none
  pitch : Option Float := none
  u_range : Option (Float × Float) := none
  v_range : Option (Float × Float) := none
  resolution : Option Nat := none
  equations : Option SurfEqs := none

/-- `np.pi` as a float literal. -/
def npPi : Float := 3.141592653589793

/-- `bases = ['A', 'T', 'G', 'C']` (bio_templates.py:336). -/
def bases : List String := ["A", "T", "G", "C"]

/-- `base_pairs = {'A': 'T', 'T': 'A', 'G': 'C', 'C': 'G'}` lookup; the
source indexes the dict with `bases[i % 4]`, so the `KeyError` branch is
unreachable (modelled as `""`). -/
def basePairOf (b : String) : String :=
  if b == "A" then "T"
  else if b == "T" then "A"
  else if b == "G" then "C"
  else if b == "C" then "G"
  else ""

/-- `STEMTemplates._get_base_color` (bio_templates.py:427-435). -/
def get_base_color (base : String) : String :=
  if base == "A" then "#00FF00"
  else if base == "T" then "#FF0000"
  else if base == "G" then "#FFFF00"
  else if base == "C" then "#0000FF"
  else "#FFFFFF"

/-- Discard a result (a Python statement whose value is unused). -/
def mignore {α : Type} (x : M α) : M Unit := mbind x (fun _ => mpure ())

/-- One iteration of the `create_dna_helix` loop (bio_templates.py:339-425):
two nucleotide bodies, one hydrogen bond, and for `0 < i` the two backbone
springs to the previous index of each strand. -/
def dnaIter (pRadius pPitch : Float) (i : Nat) : M Unit :=
  let angle := Float.ofNat i * 2.0 * npPi / 10.0
  let height := Float.ofNat i * pPitch / 10.0
  let x1 := pRadius * Float.cos angle
  let z1 := pRadius * Float.sin angle
  let x2 := pRadius * Float.cos (angle + npPi)
  let z2 := pRadius * Float.sin (angle + npPi)
  let base1 := bases.getD (i % 4) ""
  let base2 := basePairOf base1
  mseq (mignore (add_body
    { id := some ("dna_base1_" ++ Nat.repr i), type := some "sphere",
      radius := some 0.3, mass := some 300.0, position := some [x1, height, z1],
      metadata := some [("base", .s base1), ("strand", .n 1),
        ("annotations", .arr [.s "nucleotide", .s ("base_" ++ base1)]),
        ("color", .s (get_base_color base1))] }))
  (mseq (mignore (add_body
    { id := some ("dna_base2_" ++ Nat.repr i), type := some "sphere",
      radius := some 0.3, mass := some 300.0, position := some [x2, height, z2],
      metadata := some [("base", .s base2), ("strand", .n 2),
        ("annotations", .arr [.s "nucleotide", .s ("base_" ++ base2)]),
        ("color", .s (get_base_color base2))] }))
  (mseq (mignore (add_constraint
    { id := some ("dna_hbond_" ++ Nat.repr i), type := some "spring",
      body_a := some ("dna_base1_" ++ Nat.repr i),
      body_b := some ("dna_base2_" ++ Nat.repr i),
      stiffness := some 50.0, rest_length := some (2.0 * pRadius),
      metadata := some [("bond_type", .s "hydrogen"),
        ("annotations", .arr [.s "base_pair", .s "hydrogen_bond"])] }))
  (if 0 < i then
    mseq (mignore (add_constraint
      { id := some ("dna_backbone1_" ++ Nat.repr i), type := some "spring",
        body_a := some ("dna_base1_" ++ Nat.repr (i - 1)),
        body_b := some ("dna_base1_" ++ Nat.repr i),
        stiffness := some 300.0, rest_length := some (pPitch / 10.0),
        metadata := some [("bond_type", .s "backbone"),
          ("annotations", .arr [.s "sugar_phosphate"])] }))
    (mignore (add_constraint
      { id := some ("dna_backbone2_" ++ Nat.repr i), type := some "spring",
        body_a := some ("dna_base2_" ++ Nat.repr (i - 1)),
        body_b := some ("dna_base2_" ++ Nat.repr i),
        stiffness := some 300.0, rest_length := some (pPitch / 10.0),
        metadata := some [("bond_type", .s "backbone"),
          ("annotations", .arr [.s "sugar_phosphate"])] }))
  else mpure ())))

/-- `for i in range(num_base_pairs)`: iterations 0, 1, ..., n-1 in order. -/
def dnaLoop (pRadius pPitch : Float) : Nat → M Unit
  | 0 => mpure ()
  | n + 1 => mseq (dnaLoop pRadius pPitch n) (dnaIter pRadius pPitch n)

/-- `STEMTemplates.create_dna_helix` (bio_templates.py:330-425). -/
def create_dna_helix (params : Params) : M Unit :=
  dnaLoop (params.radius.getD 1.0) (params.pitch.getD 3.4) (params.base_pairs.getD 10)

/-- `np.linspace(a, b, n)` (endpoint included). -/
def linspace (a b : Float) (n : Nat) : List Float :=
  if n == 1 then [a]
  else (List.range n).map (fun i => a + (b - a) * Float.ofNat i / Float.ofNat (n - 1))

/-- Two-digit lower-case hex rendering (`f'{r:02x}'` for values ≤ 255). -/
def hex2 (n : Nat) : String := String.mk [Nat.digitChar (n / 16 % 16), Nat.digitChar (n % 16)]

/-- `STEMTemplates._get_surface_color` (bio_templates.py:583-592); Python
`int()` truncation is modelled by `Float.toUInt8`. -/
def get_surface_color (u v u0 u1 v0 v1 : Float) : String :=
  let uNorm := (u - u0) / (u1 - u0)
  let vNorm := (v - v0) / (v1 - v0)
  let r := (255.0 * uNorm).toUInt8.toNat
  let g := (255.0 * vNorm).toUInt8.toNat
  let b := (255.0 * (1.0 - (uNorm + vNorm) / 2.0)).toUInt8.toNat
  "#" ++ hex2 r ++ hex2 g ++ hex2 b

/-- The grid-point identifier `f'surface_point_{i}_{j}'`. -/
def pt (i j : Nat) : String := "surface_point_" ++ Nat.repr i ++ "_" ++ Nat.repr j

/-- The body spec for grid point `(i, j)` (the `add_body` dict literal of
bio_templates.py:550-562). -/
def surfPointCfg (E : SurfEqs) (u0 u1 v0 v1 : Float) (R i j : Nat) : BodyCfg :=
  let u := (linspace u0 u1 R).getD i 0.0
  let v := (linspace v0 v1 R).getD j 0.0
  { id := some (pt i j), type := some "sphere", radius := some 0.05,
    mass := some 0.1, position := some [E.x u v, E.y u v, E.z u v],
    metadata := some [("u", .f u), ("v", .f v),
      ("annotations", .arr [.s "parametric_surface", .s "mathematical"]),
      ("color", .s (get_surface_color u v u0 u1 v0 v1))] }

/-- The neighbour-spring spec from grid point `(a, b)` to `(c, d)` (the
`add_constraint` dict literals of bio_templates.py:566-581; no explicit id —
the sequential fallback applies). -/
def surfEdgeCfg (a b c d : Nat) : ConstraintCfg :=
  { type := some "spring", body_a := some (pt a b), body_b := some (pt c d),
    stiffness := some 100.0, rest_length := some 0.5 }

/-- One inner-loop body of `create_parametric_surface`
(bio_templates.py:543-581): add the sample-point body, then connect it to its
already-created neighbours `(i-1, j)` (when `0 < i`) and `(i, j-1)` (when
`0 < j`). -/
def surfCell (E : SurfEqs) (u0 u1 v0 v1 : Float) (R i j : Nat) : M Unit :=
  mseq (mignore (add_body (surfPointCfg E u0 u1 v0 v1 R i j)))
  (mseq (if 0 < i then mignore (add_constraint (surfEdgeCfg (i - 1) j i j)) else mpure ())
  (if 0 < j then mignore (add_constraint (surfEdgeCfg i (j - 1) i j)) else mpure ()))

/-- `for j, v in enumerate(v_vals)`: columns 0..jc-1 of row `i`. -/
def surfRow (E : SurfEqs) (u0 u1 v0 v1 : Float) (R i : Nat) : Nat → M Unit
  | 0 => mpure ()
  | j + 1 => mseq (surfRow E u0 u1 v0 v1 R i j) (surfCell E u0 u1 v0 v1 R i j)

/-- `for i, u in enumerate(u_vals)`: rows 0..ic-1, each of `R` columns. -/
def surfRows (E : SurfEqs) (u0 u1 v0 v1 : Float) (R : Nat) : Nat → M Unit
  | 0 => mpure ()
  | i + 1 => mseq (surfRows E u0 u1 v0 v1 R i) (surfRow E u0 u1 v0 v1 R i R)

/-- `STEMTemplates.create_parametric_surface` (bio_templates.py:528-581). -/
def create_parametric_surface (params : Params) : M Unit :=
  let ur := params.u_range.getD (-npPi, npPi)
  let vr := params.v_range.getD (-npPi, npPi)
  let resolution := params.resolution.getD 20
  let E := params.equations.getD defaultEqs
  surfRows E ur.1 ur.2 vr.1 vr.2 resolution resolution

/-! ## Template dispatch (`STEMTemplates.create_template`, bio_templates.py:16-57)

The dispatch dict literal `template_map = {...}` names 24 generator methods;
Python evaluates every value of a dict literal eagerly, and fifteen of the
referenced methods (`create_spring_system`, `create_projectile`,
`create_em_field`, `create_protein_chain`, `create_crystal_lattice`,
`create_chemical_reaction`, `create_mitochondrion`, `create_neuron`,
`create_virus_particle`, `create_vector_field`, `create_fractal_3d`,
`create_topology_demo`, `create_bridge_structure`, `create_fluid_flow`,
`create_circuit_3d`) are not defined on the class, so building the table
raises `AttributeError` on the first missing attribute —
`create_spring_system` — before the template name is ever examined. -/

/-- The dispatch-table entries in source order: template name, the attribute
it references, and whether that attribute is defined on `STEMTemplates`. -/
def templateTable : List (String × String × Bool) :=
  [("pendulum", "create_pendulum", true),
   ("double_pendulum", "create_double_pendulum", true),
   ("spring_system", "create_spring_system", false),
   ("projectile", "create_projectile", false),
   ("solar_system", "create_solar_system", true),
   ("electromagnetic_field", "create_em_field", false),
   ("water_molecule", "create_water_molecule", true),
   ("benzene_ring", "create_benzene_ring", true),
   ("protein_chain", "create_protein_chain", false),
   ("crystal_lattice", "create_crystal_lattice", false),
   ("chemical_reaction", "create_chemical_reaction", false),
   ("dna_helix", "create_dna_helix", true),
   ("cell_membrane", "create_cell_membrane", true),
   ("mitochondrion", "create_mitochondrion", false),
   ("neuron", "create_neuron", false),
   ("virus", "create_virus_particle", false),
   ("parametric_surface", "create_parametric_surface", true),
   ("vector_field", "create_vector_field", false),
   ("fractal_3d", "create_fractal_3d", false),
   ("topology_demo", "create_topology_demo", false),
   ("gear_system", "create_gear_system", true),
   ("bridge_structure", "create_bridge_structure", false),
   ("fluid_flow", "create_fluid_flow", false),
   ("circuit_3d", "create_circuit_3d", false)]

/-- `STEMTemplates.create_template`: construct the dispatch table (raising
`AttributeError` at the first missing generator attribute), then dispatch, or
raise `ValueError(f"Unknown template type: {template_type}")` for an
unrecognised name.  Because the table construction always fails, the
dispatch and the `ValueError` branch are unreachable; the dispatch below is
kept for the generators modelled in this file and is dead code. -/
def create_template (template_type : String) (parameters : Params) : M Unit := fun s =>
  match templateTable.find? (fun e => e.2.2 == false) with
  | some e => (.error (.attributeError e.2.1), s)
  | none =>
      if templateTable.any (fun e => e.1 == template_type) then
        (match template_type with
         | "dna_helix" => create_dna_helix parameters
         | "parametric_surface" => create_parametric_surface parameters
         | _ =>
             -- unreachable: generators not needed by any claim are not modelled
             fun s' => (.error (.attributeError "generator not modelled"), s')) s
      else
        (.error (.valueError ("Unknown template type: " ++ template_type)), s)

/-- `GenesisPhysicsServer.load_biological_preset` (genesis_server.py:344-361).

Each recognised preset invokes its generator as
`templates.create_<preset>(self)`, i.e. with the `server` argument only; the
generators require `(server, params)`, so Python raises `TypeError` (missing
positional argument) before the generator body runs.  `protein_chain` and
`mitochondrion` reference generator methods that do not exist at all, raising
`AttributeError` instead.  An unrecognised preset name only logs a warning and
returns normally.  In every case the session state is untouched. -/
def load_biological_preset (preset_name : String) : M Unit := fun s =>
  if preset_name == "water_molecule" then
    (.error (.typeError "create_water_molecule missing argument: params"), s)
  else if preset_name == "protein_chain" then
    (.error (.attributeError "create_protein_chain"), s)
  else if preset_name == "dna_helix" then
    (.error (.typeError "create_dna_helix missing argument: params"), s)
  else if preset_name == "cell_membrane" then
    (.error (.typeError "create_cell_membrane missing argument: params"), s)
  else if preset_name == "mitochondrion" then
    (.error (.attributeError "create_mitochondrion"), s)
  else
    (.ok (), s)

/-! ## Concrete scenario states used by the claim theorems -/

/-- The state after creating a sphere body with explicit id "a" on the fresh
server. -/
def dupState : ServerState := (add_body { id := some "a", type := some "sphere" } s0).snd

/-- How many stored constraints reference the engine body `e` as an
endpoint. -/
def countReferencing (l : List (String × Spring)) (e : Nat) : Nat :=
  (l.filter (fun p => p.snd.bodyA == e || p.snd.bodyB == e)).length

/-- Two sphere bodies "a", "b" joined by the spring constraint "c". -/
def cascadeState : ServerState :=
  (add_constraint { id := some "c", body_a := some "a", body_b := some "b" }
    ((add_body { id := some "b", type := some "sphere" }
      ((add_body { id := some "a", type := some "sphere" } s0).snd)).snd)).snd

/-- A session with three attached channels 1, 2, 3. -/
def threeChannels : ServerState := { active_connections := [1, 2, 3] }

/-- Char-list comparison: does `s` start with pattern `p`? -/
def listStarts : List Char → List Char → Bool
  | [], _ => true
  | _ :: _, [] => false
  | c :: cs, d :: ds => c == d && listStarts cs ds

/-- Does the string `s` start with `p`?  (A kernel-reducible reformulation of
`String.startsWith` for identifier classification.) -/
def strStarts (p s : String) : Bool := listStarts p.data s.data

/-- The DNA template applied to the empty registry with the spec's scenario
parameters (10 base pairs, radius 1.0, pitch 3.4 — also the defaults). -/
def dnaRun : Except Err Unit × ServerState :=
  create_dna_helix { base_pairs := some 10, radius := some 1.0, pitch := some 3.4 } s0

/-- The preset names recognised by `load_biological_preset`. -/
def presetNames : List String :=
  ["water_molecule", "protein_chain", "dna_helix", "cell_membrane", "mitochondrion"]

/-! ## Claim C6: parametric-surface grid — canonical forms

The loop of `create_parametric_surface` is characterised by a closed-form
state: after processing rows `0..i-1` completely and columns `0..j-1` of row
`i`, the registry holds exactly the grid points created so far (engine handle
`i*R + j` for point `(i, j)`, assigned in creation order) and the springs of
the already-visited cells, keyed `constraint_0, constraint_1, ...` in
creation order. -/

/-- The engine handle of grid point `(a, b)`: points are created row-major,
so the handle is the creation rank `a * R + b`. -/
def cellId (R : Nat) (c : Nat × Nat) : Nat := c.1 * R + c.2

/-- The grid cells processed strictly before reaching row `i`, column `j`
(row-major). -/
def cellsUpTo (R i j : Nat) : List (Nat × Nat) :=
  ((List.range i).flatMap (fun a => (List.range R).map (fun b => (a, b))))
    ++ (List.range j).map (fun b => (i, b))

/-- The neighbour springs created while processing cell `c`: one from
`(c₁-1, c₂)` when `c₁ > 0`, then one from `(c₁, c₂-1)` when `c₂ > 0` —
always towards `c`, never the reverse direction, never diagonal. -/
def cellEdges (c : Nat × Nat) : List ((Nat × Nat) × (Nat × Nat)) :=
  (if 0 < c.1 then [((c.1 - 1, c.2), c)] else [])
    ++ (if 0 < c.2 then [((c.1, c.2 - 1), c)] else [])

/-- All springs created strictly before reaching row `i`, column `j`. -/
def edgesUpTo (R i j : Nat) : List ((Nat × Nat) × (Nat × Nat)) :=
  (cellsUpTo R i j).flatMap cellEdges

/-- The engine spring object for the edge `e` (stiffness 100.0, default
damping 1.0, rest length 0.5 — the parameters of the template's
`add_constraint` calls). -/
def springOf (R : Nat) (e : (Nat × Nat) × (Nat × Nat)) : Spring :=
  { bodyA := cellId R e.1, bodyB := cellId R e.2,
    stiffness := 100.0, damping := 1.0, restLength := 0.5 }

/-- The engine body object for grid point `c` as `add_body` creates it. -/
def surfBody (E : SurfEqs) (u0 u1 v0 v1 : Float) (R : Nat) (c : Nat × Nat) : Body :=
  let u := (linspace u0 u1 R).getD c.1 0.0
  let v := (linspace v0 v1 R).getD c.2 0.0
  { engineId := cellId R c, shape := .sphere 0.05, mass := 0.1,
    position := [E.x u v, E.y u v, E.z u v],
    metadata := [("u", MVal.f u), ("v", MVal.f v),
      ("annotations", MVal.arr [MVal.s "parametric_surface", MVal.s "mathematical"]),
      ("color", MVal.s (get_surface_color u v u0 u1 v0 v1))] }

/-- Pair each list element with its index, starting at `n`. -/
def withIdx {α : Type} : List α → Nat → List (Nat × α)
  | [], _ => []
  | x :: xs, n => (n, x) :: withIdx xs (n + 1)

/-- The fallback constraint key `constraint_<n>`. -/
def conKey (n : Nat) : String := "constraint_" ++ Nat.repr n

/-- The canonical mid-loop server state of the surface template, given the
cells already processed and the edges already created. -/
def mkSurfState (E : SurfEqs) (u0 u1 v0 v1 : Float) (R : Nat)
    (cells : List (Nat × Nat)) (edges : List ((Nat × Nat) × (Nat × Nat))) : ServerState :=
  { heap := cells.map (fun c => (cellId R c, surfBody E u0 u1 v0 v1 R c)),
    sceneBodyIds := cells.map (cellId R),
    sceneSprings := edges.map (springOf R),
    nextEngineId := cells.length,
    bodies := cells.map (fun c => (pt c.1 c.2, cellId R c)),
    constraints := (withIdx edges 0).map (fun e => (conKey e.1, springOf R e.2)) }

/-- The surface template applied to the empty registry at resolution `R`. -/
def surfRun (R : Nat) : Except Err Unit × ServerState :=
  create_parametric_surface { resolution := some R } s0

/-! ## Basic dict lemmas -/

theorem dictLookup_insert_self {β : Type} (k : String) (v : β) (l : List (String × β)) :
    dictLookup k (dictInsert k v l) = some v := by
  induction l with
  | nil => simp [dictInsert, dictLookup]
  | cons p rest ih =>
      obtain ⟨k', v'⟩ := p
      by_cases h : k' == k
      · simp [dictInsert, dictLookup, h]
      · simp only [dictInsert, dictLookup, h]
        simp only [Bool.false_eq_true, if_false, dictLookup, h, ih]

theorem dictLookup_insert_ne {β : Type} {k k' : String} (v : β) (l : List (String × β))
    (h : k ≠ k') : dictLookup k' (dictInsert k v l) = dictLookup k' l := by
  induction l with
  | nil => simp [dictInsert, dictLookup, h]
  | cons p rest ih =>
      obtain ⟨k0, v0⟩ := p
      by_cases h0 : k0 == k
      · have hk0 : k0 = k := by simpa using h0
        subst hk0
        have : ¬ (k0 == k') := by simpa using h
        simp [dictInsert, dictLookup, this]
      · by_cases h1 : k0 == k'
        · simp [dictInsert, dictLookup, h0, h1]
        · simp [dictInsert, dictLookup, h0, h1, ih]

theorem dictInsert_append_of_not_mem {β : Type} (k : String) (v : β)
    (l : List (String × β)) (h : dictLookup k l = none) :
    dictInsert k v l = l ++ [(k, v)] := by
  induction l with
  | nil => simp [dictInsert]
  | cons p rest ih =>
      obtain ⟨k', v'⟩ := p
      by_cases h0 : k' == k
      · simp [dictLookup, h0] at h
      · simp only [dictLookup, h0] at h
        simp only [Bool.false_eq_true, if_false] at h
        simp [dictInsert, h0, ih h]

theorem dictInsert_length_of_not_mem {β : Type} (k : String) (v : β)
    (l : List (String × β)) (h : dictLookup k l = none) :
    (dictInsert k v l).length = l.length + 1 := by
  rw [dictInsert_append_of_not_mem k v l h]
  simp

theorem dictInsert_length_of_mem {β : Type} (k : String) (v : β)
    (l : List (String × β)) (h : dictMem k l = true) :
    (dictInsert k v l).length = l.length := by
  induction l with
  | nil => simp [dictMem, dictLookup] at h
  | cons p rest ih =>
      obtain ⟨k', v'⟩ := p
      by_cases h0 : k' == k
      · simp [dictInsert, h0]
      · simp only [dictMem, dictLookup, h0] at h
        simp only [Bool.false_eq_true, if_false] at h
        simp [dictInsert, h0, ih h]

theorem dkeys_insert_of_not_mem {β : Type} (k : String) (v : β)
    (l : List (String × β)) (h : dictLookup k l = none) :
    dkeys (dictInsert k v l) = dkeys l ++ [k] := by
  rw [dictInsert_append_of_not_mem k v l h]
  simp [dkeys]

theorem dkeys_insert_of_mem {β : Type} (k : String) (v : β)
    (l : List (String × β)) (h : dictMem k l = true) :
    dkeys (dictInsert k v l) = dkeys l := by
  induction l with
  | nil => simp [dictMem, dictLookup] at h
  | cons p rest ih =>
      obtain ⟨k', v'⟩ := p
      by_cases h0 : k' == k
      · simp [dictInsert, dkeys, h0]
      · simp only [dictMem, dictLookup, h0] at h
        simp only [Bool.false_eq_true, if_false] at h
        simp only [dictInsert, h0, Bool.false_eq_true, if_false]
        simp [dkeys] at ih ⊢
        exact ih h

theorem dictLookup_eq_none_iff {β : Type} (k : String) (l : List (String × β)) :
    dictLookup k l = none ↔ k ∉ dkeys l := by
  induction l with
  | nil => simp [dictLookup, dkeys]
  | cons p rest ih =>
      obtain ⟨k', v'⟩ := p
      by_cases h0 : k' == k
      · have : k' = k := by simpa using h0
        subst this
        simp [dictLookup, dkeys]
      · have hne : k' ≠ k := by simpa using h0
        simp [dictLookup, dkeys, h0, ih, Ne.symm hne]

theorem dkeys_nodup_insert {β : Type} (k : String) (v : β) (l : List (String × β))
    (h : (dkeys l).Nodup) : (dkeys (dictInsert k v l)).Nodup := by
  by_cases hm : dictMem k l = true
  · rwa [dkeys_insert_of_mem k v l hm]
  · have hn : dictLookup k l = none := by
      simp [dictMem] at hm
      exact Option.eq_none_of_isNone (by simpa using hm)
    rw [dkeys_insert_of_not_mem k v l hn]
    have hk : k ∉ dkeys l := (dictLookup_eq_none_iff k l).mp hn
    simp [List.nodup_append, hk, h]

theorem digs_eq_small {n : Nat} (h : n < 10) : digs n = [Nat.digitChar (n % 10)] := by
  rw [digs]
  simp [h]

theorem digs_eq_large {n : Nat} (h : ¬ n < 10) :
    digs n = digs (n / 10) ++ [Nat.digitChar (n % 10)] := by
  rw [digs]
  simp [h]

theorem toDigitsCore_shift (fuel : Nat) : ∀ (n : Nat) (ds : List Char),
    Nat.toDigitsCore 10 fuel n ds = Nat.toDigitsCore 10 fuel n [] ++ ds := by
  induction fuel with
  | zero => intro n ds; simp [Nat.toDigitsCore]
  | succ f ih =>
      intro n ds
      simp only [Nat.toDigitsCore]
      by_cases h : n / 10 = 0
      · simp [h]
      · simp only [h, if_false]
        rw [ih (n / 10) (Nat.digitChar (n % 10) :: ds), ih (n / 10) [Nat.digitChar (n % 10)]]
        simp

theorem toDigitsCore_eq_digs (n : Nat) : ∀ (fuel : Nat), n < fuel →
    Nat.toDigitsCore 10 fuel n [] = digs n := by
  induction n using Nat.strong_induction_on with
  | _ n ih =>
    intro fuel h
    match fuel, h with
    | f + 1, h =>
      simp only [Nat.toDigitsCore]
      by_cases h0 : n / 10 = 0
      · have hn : n < 10 := by omega
        rw [digs_eq_small hn]
        simp [h0]
      · have hn : ¬ n < 10 := by
          intro hc
          exact h0 (Nat.div_eq_of_lt hc)
        have hdivn : n / 10 < n := Nat.div_lt_self (by omega) (by omega)
        simp only [h0, if_false]
        rw [toDigitsCore_shift, ih (n / 10) hdivn f (by omega), digs_eq_large hn]

theorem repr_data (n : Nat) : (Nat.repr n).data = digs n := by
  show (Nat.toDigits 10 n).asString.data = digs n
  rw [Nat.toDigits, toDigitsCore_eq_digs n (n + 1) (Nat.lt_succ_self n)]
  rfl

theorem digitChar_toNat {d : Nat} (h : d < 10) : (Nat.digitChar d).toNat = d + 48 := by
  interval_cases d <;> rfl

theorem foldl_digs (n : Nat) : ∀ (acc : Nat),
    (digs n).foldl (fun a c => 10 * a + (c.toNat - 48)) acc
      = acc * 10 ^ (digs n).length + n := by
  induction n using Nat.strong_induction_on with
  | _ n ih =>
    intro acc
    by_cases h : n < 10
    · rw [digs_eq_small h]
      simp only [List.foldl_cons, List.foldl_nil, List.length_cons, List.length_nil]
      rw [digitChar_toNat (Nat.mod_lt n (by omega)), Nat.mod_eq_of_lt h]
      omega
    · have hdivn : n / 10 < n := Nat.div_lt_self (by omega) (by omega)
      rw [digs_eq_large h, List.foldl_append, ih (n / 10) hdivn acc]
      simp only [List.foldl_cons, List.foldl_nil, List.length_append, List.length_cons,
        List.length_nil]
      rw [digitChar_toNat (Nat.mod_lt n (by omega))]
      have hmod := Nat.div_add_mod n 10
      have hp : (10 : Nat) ^ ((digs (n / 10)).length + (0 + 1))
          = 10 ^ (digs (n / 10)).length * 10 := by
        rw [pow_add]
        norm_num
      rw [hp, ← Nat.mul_assoc]
      omega

theorem digs_injective {a b : Nat} (h : digs a = digs b) : a = b := by
  have ha := foldl_digs a 0
  have hb := foldl_digs b 0
  rw [h] at ha
  omega

theorem repr_injective {a b : Nat} (h : Nat.repr a = Nat.repr b) : a = b := by
  apply digs_injective
  rw [← repr_data, ← repr_data, h]

theorem digitChar_ne_underscore {d : Nat} (h : d < 10) : Nat.digitChar d ≠ '_' := by
  interval_cases d <;> decide

theorem digs_no_underscore (n : Nat) : ∀ c ∈ digs n, c ≠ '_' := by
  induction n using Nat.strong_induction_on with
  | _ n ih =>
    by_cases h : n < 10
    · rw [digs_eq_small h]
      intro c hc
      simp at hc
      subst hc
      exact digitChar_ne_underscore (Nat.mod_lt n (by omega))
    · have hdivn : n / 10 < n := Nat.div_lt_self (by omega) (by omega)
      rw [digs_eq_large h]
      intro c hc
      rcases List.mem_append.mp hc with hc | hc
      · exact ih (n / 10) hdivn c hc
      · simp at hc
        subst hc
        exact digitChar_ne_underscore (Nat.mod_lt n (by omega))

theorem append_underscore_inj (a : List Char) : ∀ (a' b b' : List Char),
    (∀ c ∈ a, c ≠ '_') → (∀ c ∈ a', c ≠ '_') →
    a ++ '_' :: b = a' ++ '_' :: b' → a = a' ∧ b = b' := by
  induction a with
  | nil =>
      intro a' b b' _ ha' h
      cases a' with
      | nil => simpa using h
      | cons c t =>
          simp only [List.nil_append, List.cons_append, List.cons.injEq] at h
          exact absurd h.1.symm (ha' c (by simp))
  | cons c t ih =>
      intro a' b b' ha ha' h
      cases a' with
      | nil =>
          simp only [List.nil_append, List.cons_append, List.cons.injEq] at h
          exact absurd h.1 (ha c (by simp))
      | cons c' t' =>
          simp only [List.cons_append, List.cons.injEq] at h
          obtain ⟨rfl, h⟩ := h
          obtain ⟨rfl, rfl⟩ := ih t' b b' (fun x hx => ha x (by simp [hx]))
            (fun x hx => ha' x (by simp [hx])) h
          exact ⟨rfl, rfl⟩

/-! ## Claim C9: unknown geometric type makes `add_body` raise -/

/-- C9.  For every body configuration whose geometric type is neither
"sphere" nor "box", `add_body` raises (the `body` local is never bound before
`body.metadata` is assigned, giving an `UnboundLocalError`) rather than
creating a default body, and the state — in particular the bodies mapping —
is unchanged. -/
theorem add_body_unknown_type_raises (cfg : BodyCfg) (s : ServerState)
    (h1 : cfg.type.getD "sphere" ≠ "sphere") (h2 : cfg.type.getD "sphere" ≠ "box") :
    add_body cfg s = (.error (.nameError "body"), s) := by
  have b1 : (cfg.type.getD "sphere" == "sphere") = false := by simpa using h1
  have b2 : (cfg.type.getD "sphere" == "box") = false := by simpa using h2
  simp [add_body, b1, b2]

/-- Witness for C9: a "cylinder" body (as the cell-membrane template's lipid
tails request) is rejected with the unbound-local error and adds nothing. -/
theorem add_body_unknown_type_raises_witness :
    ((({ type := some "cylinder" } : BodyCfg).type.getD "sphere" ≠ "sphere")
      ∧ (({ type := some "cylinder" } : BodyCfg).type.getD "sphere" ≠ "box"))
    ∧ add_body { type := some "cylinder" } s0 = (.error (.nameError "body"), s0) :=
  ⟨⟨by decide, by decide⟩,
   add_body_unknown_type_raises { type := some "cylinder" } s0 (by decide) (by decide)⟩

/-! ## Claim C1: identifier assignment and duplicate handling in `add_body` -/

/-- Counterexample to C1 as stated: a second `createBody` with the already
used explicit id "a" is not rejected with a `DuplicateEntity` error — it
succeeds (returns the id) and mutates state: a second sphere is created in
the engine scene (two scene bodies, two heap objects) while the registry
still holds one entry for "a", now overwritten to the new engine body. -/
theorem duplicate_id_overwrite_counterexample :
    (add_body { id := some "a", type := some "sphere" } dupState).fst = .ok "a"
    ∧ (add_body { id := some "a", type := some "sphere" } dupState).snd.sceneBodyIds = [0, 1]
    ∧ (add_body { id := some "a", type := some "sphere" } dupState).snd.bodies = [("a", 1)]
    ∧ dupState.bodies = [("a", 0)] := by
  refine ⟨rfl, by decide, by decide, by decide⟩

/-- C1 (amended).  No two live bodies ever share an identifier (the registry
is a dict, and `dictInsert` preserves key uniqueness); a `createBody` call
whose explicit identifier equals an existing live body's identifier is NOT
rejected: it succeeds, creates a fresh engine body, and silently overwrites
the registry entry, leaving the body count unchanged; and when no identifier
is given the registry assigns the deterministic sequential fallback
identifier `body_<n>` with `n` the current body count. -/
theorem add_body_id_semantics :
    (∀ (cfg : BodyCfg) (s : ServerState), (dkeys s.bodies).Nodup →
       (dkeys (add_body cfg s).snd.bodies).Nodup)
    ∧ (∀ (cfg : BodyCfg) (s : ServerState) (bid : String), cfg.id = some bid →
        (cfg.type.getD "sphere" = "sphere" ∨ cfg.type.getD "sphere" = "box") →
        dictMem bid s.bodies = true →
        (add_body cfg s).fst = .ok bid
        ∧ (add_body cfg s).snd.bodies.length = s.bodies.length
        ∧ dictLookup bid (add_body cfg s).snd.bodies = some s.nextEngineId
        ∧ (add_body cfg s).snd.sceneBodyIds.length = s.sceneBodyIds.length + 1)
    ∧ (∀ (cfg : BodyCfg) (s : ServerState), cfg.id = none →
        (cfg.type.getD "sphere" = "sphere" ∨ cfg.type.getD "sphere" = "box") →
        (add_body cfg s).fst = .ok ("body_" ++ Nat.repr s.bodies.length)) := by
  refine ⟨?_, ?_, ?_⟩
  · intro cfg s h
    by_cases h1 : (cfg.type.getD "sphere" == "sphere")
    · simp only [add_body, h1, if_true]
      exact dkeys_nodup_insert _ _ _ h
    · by_cases h2 : (cfg.type.getD "sphere" == "box")
      · simp only [add_body, h1, h2, Bool.false_eq_true, if_false, if_true]
        exact dkeys_nodup_insert _ _ _ h
      · simp only [add_body, h1, h2, Bool.false_eq_true, if_false]
        exact h
  · intro cfg s bid hid hty hmem
    rcases hty with hty | hty
    · have h1 : (cfg.type.getD "sphere" == "sphere") = true := by simp [hty]
      simp only [add_body, h1, if_true, hid, Option.getD_some]
      exact ⟨trivial, dictInsert_length_of_mem _ _ _ hmem,
        dictLookup_insert_self _ _ _, by simp⟩
    · have h1 : (cfg.type.getD "sphere" == "sphere") = false := by simp [hty]
      have h2 : (cfg.type.getD "sphere" == "box") = true := by simp [hty]
      simp only [add_body, h1, h2, Bool.false_eq_true, if_false, if_true, hid,
        Option.getD_some]
      exact ⟨trivial, dictInsert_length_of_mem _ _ _ hmem,
        dictLookup_insert_self _ _ _, by simp⟩
  · intro cfg s hid hty
    rcases hty with hty | hty
    · have h1 : (cfg.type.getD "sphere" == "sphere") = true := by simp [hty]
      simp [add_body, h1, hid]
    · have h1 : (cfg.type.getD "sphere" == "sphere") = false := by simp [hty]
      have h2 : (cfg.type.getD "sphere" == "box") = true := by simp [hty]
      simp [add_body, h1, h2, hid]

/-- Witness for the amended C1, exercising all three conjuncts on concrete
states: a duplicate insert of "a" keeps the single registry entry (now bound
to engine body 1) while growing the scene, and an id-less call on `dupState`
returns the fallback `body_1`. -/
theorem add_body_id_semantics_witness :
    ((dkeys s0.bodies).Nodup ∧ (dkeys (add_body { id := some "a", type := some "sphere" } s0).snd.bodies).Nodup)
    ∧ ((add_body { id := some "a", type := some "sphere" } dupState).fst = .ok "a"
        ∧ (add_body { id := some "a", type := some "sphere" } dupState).snd.bodies.length = dupState.bodies.length
        ∧ dictLookup "a" (add_body { id := some "a", type := some "sphere" } dupState).snd.bodies = some dupState.nextEngineId
        ∧ (add_body { id := some "a", type := some "sphere" } dupState).snd.sceneBodyIds.length = dupState.sceneBodyIds.length + 1)
    ∧ (add_body { type := some "sphere" } dupState).fst = .ok ("body_" ++ Nat.repr dupState.bodies.length) :=
  ⟨⟨by decide, add_body_id_semantics.1 { id := some "a", type := some "sphere" } s0 (by decide)⟩,
   add_body_id_semantics.2.1 { id := some "a", type := some "sphere" } dupState "a" rfl
     (Or.inl (by decide)) (by decide),
   add_body_id_semantics.2.2 { type := some "sphere" } dupState rfl (Or.inl (by decide))⟩

/-! ## Claim C2: `remove_body` — no cascade, no `NotFound` -/

/-- Counterexample to C2 as stated: body "a" (engine body 0) has one
referencing constraint; `remove_body "a"` removes the body but leaves that
constraint in place (one constraint still referencing engine body 0, not
zero), and `remove_body` of an absent identifier returns normally instead of
failing with a `NotFound` error. -/
theorem remove_body_no_cascade_counterexample :
    dictLookup "a" cascadeState.bodies = some 0
    ∧ countReferencing cascadeState.constraints 0 = 1
    ∧ dictMem "a" (remove_body "a" cascadeState).snd.bodies = false
    ∧ countReferencing (remove_body "a" cascadeState).snd.constraints 0 = 1
    ∧ remove_body "no_such_body" cascadeState = (.ok (), cascadeState) :=
  ⟨by decide, by decide, by decide, by decide, rfl⟩

/-- C2 (amended).  `remove_body` of a present identifier removes exactly that
body from the registry and the engine scene and leaves the constraints
mapping entirely untouched — constraints referencing the removed body stay
live (no cascading delete); `remove_body` of an absent identifier is a silent
no-op returning success (no `NotFound` error). -/
theorem remove_body_semantics :
    ∀ (s : ServerState) (bid : String),
      (dictMem bid s.bodies = false → remove_body bid s = (.ok (), s))
      ∧ (∀ eid, dictLookup bid s.bodies = some eid →
          remove_body bid s =
            (.ok (), { s with bodies := dictErase bid s.bodies,
                              sceneBodyIds := s.sceneBodyIds.erase eid })) := by
  intro s bid
  constructor
  · intro h
    have hn : dictLookup bid s.bodies = none := by
      simp [dictMem] at h
      exact Option.eq_none_of_isNone (by simpa using h)
    simp [remove_body, hn]
  · intro eid h
    simp [remove_body, h]

/-- Witness for the amended C2: on `cascadeState`, removing the present "a"
erases only the body, and removing an absent id is the identity. -/
theorem remove_body_semantics_witness :
    (dictMem "zz" cascadeState.bodies = false
      ∧ remove_body "zz" cascadeState = (.ok (), cascadeState))
    ∧ (dictLookup "a" cascadeState.bodies = some 0
      ∧ remove_body "a" cascadeState =
          (.ok (), { cascadeState with bodies := dictErase "a" cascadeState.bodies,
                                       sceneBodyIds := cascadeState.sceneBodyIds.erase 0 })) :=
  ⟨⟨by decide, (remove_body_semantics cascadeState "zz").1 (by decide)⟩,
   ⟨by decide, (remove_body_semantics cascadeState "a").2 0 (by decide)⟩⟩

/-! ## Claims C4 and C10: `add_constraint` endpoint handling -/

/-- Counterexample to C4 as stated: with both endpoint identifiers absent
from the (empty) registry, `add_constraint` does not fail with an
`UnknownBody` error — it returns the fallback identifier as a success and
leaves the state exactly as it was (nothing created). -/
theorem add_constraint_missing_endpoint_counterexample :
    add_constraint { body_a := some "x", body_b := some "y" } s0 = (.ok "constraint_0", s0) :=
  rfl

/-- C4 (amended).  `add_constraint` (for the default "spring" kind) checks
that both endpoint identifiers are live, but enforces nothing: when both
endpoints exist it creates the spring in the engine and stores it under the
constraint id; when either endpoint is missing it silently creates nothing —
the state is unchanged — yet still returns the constraint id as a success
instead of an `UnknownBody` error. -/
theorem add_constraint_endpoint_semantics :
    ∀ (cfg : ConstraintCfg) (s : ServerState), cfg.type.getD "spring" = "spring" →
      (∀ ea eb, cfg.body_a.bind (fun a => dictLookup a s.bodies) = some ea →
        cfg.body_b.bind (fun b => dictLookup b s.bodies) = some eb →
        add_constraint cfg s =
          (.ok (cfg.id.getD ("constraint_" ++ Nat.repr s.constraints.length)),
           { s with
             sceneSprings := s.sceneSprings ++
               [{ bodyA := ea, bodyB := eb, stiffness := cfg.stiffness.getD 100.0,
                  damping := cfg.damping.getD 1.0, restLength := cfg.rest_length.getD 1.0 }],
             constraints :=
               dictInsert (cfg.id.getD ("constraint_" ++ Nat.repr s.constraints.length))
                 { bodyA := ea, bodyB := eb, stiffness := cfg.stiffness.getD 100.0,
                   damping := cfg.damping.getD 1.0, restLength := cfg.rest_length.getD 1.0 }
                 s.constraints }))
      ∧ ((cfg.body_a.bind (fun a => dictLookup a s.bodies) = none
           ∨ cfg.body_b.bind (fun b => dictLookup b s.bodies) = none) →
        add_constraint cfg s =
          (.ok (cfg.id.getD ("constraint_" ++ Nat.repr s.constraints.length)), s)) := by
  intro cfg s hty
  have h1 : (cfg.type.getD "spring" == "spring") = true := by simp [hty]
  constructor
  · intro ea eb ha hb
    simp [add_constraint, h1, ha, hb]
  · intro h
    rcases h with h | h
    · simp [add_constraint, h1, h]
    · cases ha : cfg.body_a.bind (fun a => dictLookup a s.bodies) with
      | none => simp [add_constraint, h1, ha]
      | some ea => simp [add_constraint, h1, ha, h]

/-- Witness for the amended C4 on concrete states: on `cascadeState`'s two
bodies a fresh spring is created and stored; on the empty registry the same
call is a silent success with no mutation. -/
theorem add_constraint_endpoint_semantics_witness :
    (add_constraint { body_a := some "a", body_b := some "b" } cascadeState =
      (.ok "constraint_1",
       { cascadeState with
         sceneSprings := cascadeState.sceneSprings ++
           [{ bodyA := 0, bodyB := 1, stiffness := 100.0, damping := 1.0, restLength := 1.0 }],
         constraints := dictInsert "constraint_1"
           { bodyA := 0, bodyB := 1, stiffness := 100.0, damping := 1.0, restLength := 1.0 }
           cascadeState.constraints }))
    ∧ add_constraint { body_a := some "a", body_b := some "b" } s0 = (.ok "constraint_0", s0) := by
  constructor
  · have h := (add_constraint_endpoint_semantics
      { body_a := some "a", body_b := some "b" } cascadeState rfl).1 0 1 (by decide) (by decide)
    exact h.trans (by rfl)
  · exact (add_constraint_endpoint_semantics
      { body_a := some "a", body_b := some "b" } s0 rfl).2 (Or.inl (by decide))

/-- C10.  `add_constraint` always returns a constraint identifier — the
supplied one, or the sequential fallback `constraint_<n>` — as a success,
even when one or both endpoint body identifiers are absent; in that absent
case no engine constraint is created and the constraints mapping (indeed the
whole state) is unchanged, so the caller receives the same success-shaped
result as for a genuinely created constraint. -/
theorem add_constraint_silent_success :
    ∀ (cfg : ConstraintCfg) (s : ServerState),
      (add_constraint cfg s).fst =
        .ok (cfg.id.getD ("constraint_" ++ Nat.repr s.constraints.length))
      ∧ (cfg.type.getD "spring" = "spring" →
          (cfg.body_a.bind (fun a => dictLookup a s.bodies) = none
            ∨ cfg.body_b.bind (fun b => dictLookup b s.bodies) = none) →
          (add_constraint cfg s).snd = s) := by
  intro cfg s
  constructor
  · by_cases h1 : (cfg.type.getD "spring" == "spring")
    · cases ha : cfg.body_a.bind (fun a => dictLookup a s.bodies) with
      | none => simp [add_constraint, h1, ha]
      | some ea =>
          cases hb : cfg.body_b.bind (fun b => dictLookup b s.bodies) with
          | none => simp [add_constraint, h1, ha, hb]
          | some eb => simp [add_constraint, h1, ha, hb]
    · simp [add_constraint, h1]
  · intro hty h
    have h1 : (cfg.type.getD "spring" == "spring") = true := by simp [hty]
    rcases h with h | h
    · simp [add_constraint, h1, h]
    · cases ha : cfg.body_a.bind (fun a => dictLookup a s.bodies) with
      | none => simp [add_constraint, h1, ha]
      | some ea => simp [add_constraint, h1, ha, h]

/-- Witness for C10: a constraint whose `body_b` is unknown on `cascadeState`
returns the fallback id `constraint_1` (one constraint exists already) as a
success while the state is untouched. -/
theorem add_constraint_silent_success_witness :
    (add_constraint { body_a := some "a", body_b := some "ghost" } cascadeState).fst =
      .ok "constraint_1"
    ∧ (add_constraint { body_a := some "a", body_b := some "ghost" } cascadeState).snd =
      cascadeState := by
  have h := add_constraint_silent_success { body_a := some "a", body_b := some "ghost" } cascadeState
  exact ⟨h.1.trans (by rfl), h.2 rfl (Or.inr (by decide))⟩

/-! ## Claim C7: unrecognised command types -/

/-- Counterexample to C7 as stated: a message with an unrecognised `type`
discriminator produces no reply whatsoever to the originating client (the
reply list is empty — in particular no `UnknownCommand` error is reported
back); the session state is unchanged. -/
theorem unknown_command_silent_counterexample :
    handle_client_message { type := some "frobnicate" } cascadeState = (cascadeState, []) :=
  rfl

/-- C7 (amended).  For every inbound client message whose type discriminator
is not one of the recognised command types (`apply_force`, `set_position`,
`set_velocity`), the router silently ignores the message: session state
(bodies, constraints, running flag — the whole state) is unchanged and no
reply of any kind, in particular no `UnknownCommand` error, is sent back. -/
theorem handle_client_message_unknown_silent :
    ∀ (msg : ClientMsg) (s : ServerState),
      msg.type ≠ some "apply_force" → msg.type ≠ some "set_position" →
      msg.type ≠ some "set_velocity" →
      handle_client_message msg s = (s, []) := by
  intro msg s h1 h2 h3
  have b1 : (msg.type == some "apply_force") = false := by
    simpa using h1
  have b2 : (msg.type == some "set_position") = false := by
    simpa using h2
  have b3 : (msg.type == some "set_velocity") = false := by
    simpa using h3
  simp [handle_client_message, b1, b2, b3]

/-- Witness for the amended C7: the `frobnicate` message on a populated
session is dropped without reply or mutation. -/
theorem handle_client_message_unknown_silent_witness :
    ((some "frobnicate" ≠ some "apply_force") ∧ (some "frobnicate" ≠ some "set_position")
      ∧ (some "frobnicate" ≠ some "set_velocity"))
    ∧ handle_client_message { type := some "frobnicate", body_id := some "a" } cascadeState =
        (cascadeState, []) :=
  ⟨⟨by decide, by decide, by decide⟩,
   handle_client_message_unknown_silent { type := some "frobnicate", body_id := some "a" }
     cascadeState (by decide) (by decide) (by decide)⟩

/-! ## Claim C8: broadcast isolation -/

theorem sendAttempts_eq (fails : Nat → Bool) :
    ∀ l : List Nat, sendAttempts fails l = (l.filter (fun c => !fails c), l.filter fails) := by
  intro l
  induction l with
  | nil => rfl
  | cons c rest ih =>
      by_cases h : fails c <;> simp [sendAttempts, ih, List.filter_cons, h]

theorem prune_eq : ∀ (ds l : List Nat), l.Nodup → ds.Nodup → (∀ d ∈ ds, d ∈ l) →
    pruneDisconnected ds l = l.filter (fun c => !ds.contains c) := by
  intro ds
  induction ds with
  | nil =>
      intro l _ _ _
      simp [pruneDisconnected, List.contains]
  | cons d ds ih =>
      intro l hl hds hsub
      have hd : d ∈ l := hsub d (by simp)
      have hcont : l.contains d = true := by
        simp [List.contains, List.elem_eq_mem, hd]
      have hstep : pruneDisconnected (d :: ds) l = pruneDisconnected ds (l.erase d) := by
        simp [pruneDisconnected, List.contains, List.elem_eq_mem, hd]
      have hsub' : ∀ x ∈ ds, x ∈ l.erase d := by
        intro x hx
        have hxd : x ≠ d := by
          intro he
          exact (List.nodup_cons.mp hds).1 (he ▸ hx)
        exact (List.mem_erase_of_ne hxd).mpr (hsub x (by simp [hx]))
      rw [hstep, ih (l.erase d) (hl.erase d) (List.Nodup.of_cons hds) hsub']
      rw [hl.erase_eq_filter d, List.filter_filter]
      apply List.filter_congr
      intro c _
      by_cases h1 : c = d <;> by_cases h2 : c ∈ ds <;>
        simp [List.contains, List.elem_eq_mem, h1, h2]

/-- The channels that received a broadcast are exactly the attached channels
whose send did not raise (independent of duplicates). -/
theorem broadcast_sent (fails : Nat → Bool) (s : ServerState) :
    (broadcast_update fails s).snd = s.active_connections.filter (fun c => !fails c) := by
  simp [broadcast_update, sendAttempts_eq]

/-- After a broadcast, the active set is exactly the surviving channels. -/
theorem broadcast_active (fails : Nat → Bool) (s : ServerState)
    (h : s.active_connections.Nodup) :
    (broadcast_update fails s).fst.active_connections =
      s.active_connections.filter (fun c => !fails c) := by
  have hprune : pruneDisconnected (s.active_connections.filter fails) s.active_connections
      = s.active_connections.filter (fun c => !fails c) := by
    rw [prune_eq _ _ h (h.filter fails) (fun d hd => (List.mem_filter.mp hd).1)]
    apply List.filter_congr
    intro c hc
    by_cases hf : fails c <;>
      simp [List.contains, List.elem_eq_mem, List.mem_filter, hc, hf]
  simp [broadcast_update, sendAttempts_eq, hprune]

/-- C8.  Publishing a snapshot delivers it to exactly the attached channels
whose send succeeds, regardless of other channels failing; every failing
channel is pruned from the active set; and a subsequent broadcast is sent
only to the surviving channels (a per-channel failure never blocks or fails
delivery to the other channels). -/
theorem broadcast_isolation :
    ∀ (fails fails2 : Nat → Bool) (s : ServerState), s.active_connections.Nodup →
      (broadcast_update fails s).snd = s.active_connections.filter (fun c => !fails c)
      ∧ (broadcast_update fails s).fst.active_connections =
          s.active_connections.filter (fun c => !fails c)
      ∧ (broadcast_update fails2 (broadcast_update fails s).fst).snd =
          (s.active_connections.filter (fun c => !fails c)).filter (fun c => !fails2 c) := by
  intro fails fails2 s h
  refine ⟨broadcast_sent fails s, broadcast_active fails s h, ?_⟩
  rw [broadcast_sent fails2 (broadcast_update fails s).fst, broadcast_active fails s h]

/-- Witness for C8, the spec's own scenario: channel 2 fails delivery;
channels 1 and 3 still receive the snapshot, channel 2 is detached, and the
next (fault-free) broadcast reaches exactly 1 and 3. -/
theorem broadcast_isolation_witness :
    ([1, 2, 3] : List Nat).Nodup
    ∧ (broadcast_update (fun c => c == 2) threeChannels).snd = [1, 3]
    ∧ (broadcast_update (fun c => c == 2) threeChannels).fst.active_connections = [1, 3]
    ∧ (broadcast_update (fun _ => false)
        (broadcast_update (fun c => c == 2) threeChannels).fst).snd = [1, 3] := by
  have h := broadcast_isolation (fun c => c == 2) (fun _ => false) threeChannels (by decide)
  exact ⟨by decide, h.1.trans (by decide), h.2.1.trans (by decide), h.2.2.trans (by decide)⟩

/-! ## Claim C5: DNA helix topology -/

/-- C5.  Applying the DNA helix template with 10 base pairs to an empty
registry succeeds and creates exactly 20 nucleotide bodies (10 per strand),
exactly 10 hydrogen-bond constraints (`dna_hbond_<i>`, one per pair index)
and exactly 18 backbone constraints (`dna_backbone1_<i>` / `dna_backbone2_<i>`,
9 per strand, one per consecutive index pair per strand) — 28 constraints in
total. -/
theorem dna_helix_topology :
    dnaRun.fst = .ok ()
    ∧ dnaRun.snd.bodies.length = 20
    ∧ (dnaRun.snd.bodies.filter (fun e => strStarts "dna_base1_" e.fst)).length = 10
    ∧ (dnaRun.snd.bodies.filter (fun e => strStarts "dna_base2_" e.fst)).length = 10
    ∧ (dnaRun.snd.constraints.filter (fun e => strStarts "dna_hbond_" e.fst)).length = 10
    ∧ (dnaRun.snd.constraints.filter (fun e => strStarts "dna_backbone" e.fst)).length = 18
    ∧ dnaRun.snd.constraints.length = 28 :=
  ⟨rfl, by decide, by decide, by decide, by decide, by decide, by decide⟩

/-! ## Claim C3: template dispatch and all-or-nothing generation -/

/-- Counterexample to C3 as stated: an unrecognised template name does not
fail with the `UnknownTemplate` (`ValueError`) error — `create_template`
raises `AttributeError` while building its dispatch table (whose entries
reference fifteen generator methods that do not exist on the class), before
the name is even examined; and through the server's own preset loader an
unknown name is not an error at all, it is a silent success.  (Both paths do
leave the state unmutated.) -/
theorem template_dispatch_counterexample :
    create_template "no_such_template" {} s0 =
      (.error (.attributeError "create_spring_system"), s0)
    ∧ load_biological_preset "no_such_preset" s0 = (.ok (), s0) :=
  ⟨rfl, rfl⟩

/-- C3 (amended).  No template invocation reaches a generator through the
dispatcher: every `create_template` call — recognised name or not — raises
`AttributeError` over the first missing generator (`create_spring_system`)
and performs no mutation, so the `UnknownTemplate` path is unreachable; the
server's preset loader turns unknown preset names into a silent success with
no mutation (no error is reported), and every recognised preset name fails
before its generator body runs (wrong call arity, or a missing generator
method), also with no mutation.  All-or-nothing failure holds on these paths
only because no mutation ever happens; no rollback mechanism exists. -/
theorem template_dispatch_semantics :
    (∀ (ty : String) (ps : Params) (s : ServerState),
        create_template ty ps s = (.error (.attributeError "create_spring_system"), s))
    ∧ (∀ (name : String) (s : ServerState), name ∉ presetNames →
        load_biological_preset name s = (.ok (), s))
    ∧ (∀ (name : String) (s : ServerState), name ∈ presetNames →
        ∃ e, load_biological_preset name s = (.error e, s)) := by
  refine ⟨?_, ?_, ?_⟩
  · intro ty ps s
    rfl
  · intro name s h
    simp only [presetNames, List.mem_cons, List.mem_singleton] at h
    push_neg at h
    obtain ⟨h1, h2, h3, h4, h5⟩ := h
    have b1 : (name == "water_molecule") = false := by simpa using h1
    have b2 : (name == "protein_chain") = false := by simpa using h2
    have b3 : (name == "dna_helix") = false := by simpa using h3
    have b4 : (name == "cell_membrane") = false := by simpa using h4
    have b5 : (name == "mitochondrion") = false := by simpa using h5
    simp [load_biological_preset, b1, b2, b3, b4, b5]
  · intro name s h
    simp only [presetNames, List.mem_cons, List.mem_singleton] at h
    rcases h with rfl | rfl | rfl | rfl | rfl | h
    · exact ⟨.typeError "create_water_molecule missing argument: params", rfl⟩
    · exact ⟨.attributeError "create_protein_chain", rfl⟩
    · exact ⟨.typeError "create_dna_helix missing argument: params", rfl⟩
    · exact ⟨.typeError "create_cell_membrane missing argument: params", rfl⟩
    · exact ⟨.attributeError "create_mitochondrion", rfl⟩
    · simp at h

/-- Witness for the amended C3 at concrete inputs: even the well-known
"dna_helix" template name raises the table-construction `AttributeError`
through `create_template`; an unknown preset is a silent no-op; a recognised
preset errors with no mutation. -/
theorem template_dispatch_semantics_witness :
    create_template "dna_helix" {} s0 = (.error (.attributeError "create_spring_system"), s0)
    ∧ ("no_such_preset" ∉ presetNames
        ∧ load_biological_preset "no_such_preset" s0 = (.ok (), s0))
    ∧ ("dna_helix" ∈ presetNames
        ∧ ∃ e, load_biological_preset "dna_helix" s0 = (.error e, s0)) :=
  ⟨template_dispatch_semantics.1 "dna_helix" {} s0,
   ⟨by decide, template_dispatch_semantics.2.1 "no_such_preset" s0 (by decide)⟩,
   ⟨by decide, template_dispatch_semantics.2.2 "dna_helix" s0 (by decide)⟩⟩

/-! ### Generic association-list and indexing lemmas -/

theorem withIdx_length {α : Type} : ∀ (l : List α) (n : Nat), (withIdx l n).length = l.length := by
  intro l
  induction l with
  | nil => intro n; rfl
  | cons x xs ih => intro n; simp [withIdx, ih]

theorem withIdx_append {α : Type} :
    ∀ (l₁ l₂ : List α) (n : Nat), withIdx (l₁ ++ l₂) n = withIdx l₁ n ++ withIdx l₂ (n + l₁.length) := by
  intro l₁
  induction l₁ with
  | nil => intro l₂ n; simp [withIdx]
  | cons x xs ih =>
      intro l₂ n
      simp only [List.cons_append, withIdx, ih, List.length_cons]
      have : n + 1 + xs.length = n + (xs.length + 1) := by omega
      rw [show xs.append l₂ = xs ++ l₂ from rfl, ih, this]

theorem withIdx_fst_lt {α : Type} :
    ∀ (l : List α) (n : Nat) (p : Nat × α), p ∈ withIdx l n → n ≤ p.1 ∧ p.1 < n + l.length := by
  intro l
  induction l with
  | nil => intro n p hp; simp [withIdx] at hp
  | cons x xs ih =>
      intro n p hp
      simp only [withIdx, List.mem_cons] at hp
      rcases hp with rfl | hp
      · simp
      · have := ih (n + 1) p hp
        simp only [List.length_cons]
        omega

theorem dictLookup_map_inj {α β : Type} (key : α → String) (val : α → β) (x : α) :
    ∀ l : List α, (∀ y, key y = key x → y = x) → x ∈ l →
      dictLookup (key x) (l.map (fun y => (key y, val y))) = some (val x) := by
  intro l
  induction l with
  | nil => intro _ hx; simp at hx
  | cons y rest ih =>
      intro hinj hx
      by_cases h : (key y == key x)
      · have hy : y = x := hinj y (by simpa using h)
        subst hy
        simp [dictLookup, h]
      · have hyx : y ≠ x := by
          intro he
          subst he
          simp at h
        have hx' : x ∈ rest := by
          rcases List.mem_cons.mp hx with he | h'
          · exact absurd he.symm hyx
          · exact h'
        simp [dictLookup, h, ih hinj hx']

theorem dictLookup_none_of_ne {β : Type} :
    ∀ (m : List (String × β)) (K : String), (∀ p ∈ m, p.1 ≠ K) → dictLookup K m = none := by
  intro m
  induction m with
  | nil => intro K _; rfl
  | cons p rest ih =>
      intro K h
      have hp : p.1 ≠ K := h p (by simp)
      have hb : (p.1 == K) = false := by simpa using hp
      obtain ⟨k, v⟩ := p
      simp only [dictLookup]
      simp only at hb
      simp [hb, ih K (fun q hq => h q (by simp [hq]))]

theorem heapUpdate_append_fresh {β : Type} (k : Nat) (f : β → β) (v : β) :
    ∀ l : List (Nat × β), (∀ p ∈ l, p.1 ≠ k) → heapUpdate k f (l ++ [(k, v)]) = l ++ [(k, f v)] := by
  intro l
  induction l with
  | nil => intro _; simp [heapUpdate]
  | cons p rest ih =>
      intro h
      have hp : p.1 ≠ k := h p (by simp)
      have hb : (p.1 == k) = false := by simpa using hp
      obtain ⟨k', v'⟩ := p
      simp only at hb
      simp [heapUpdate, hb, ih (fun q hq => h q (by simp [hq]))]

/-! ### Identifier injectivity -/

theorem pt_inj {i j i' j' : Nat} (h : pt i j = pt i' j') : i = i' ∧ j = j' := by
  have hd := congrArg String.data h
  simp only [pt, String.data_append, repr_data] at hd
  simp only [List.append_assoc, List.singleton_append] at hd
  have h2 := List.append_cancel_left hd
  obtain ⟨hi, hj⟩ := append_underscore_inj (digs i) (digs i') (digs j) (digs j')
    (digs_no_underscore i) (digs_no_underscore i') h2
  exact ⟨digs_injective hi, digs_injective hj⟩

theorem conKey_inj {a b : Nat} (h : conKey a = conKey b) : a = b := by
  have hd := congrArg String.data h
  simp only [conKey, String.data_append, repr_data] at hd
  exact digs_injective (List.append_cancel_left hd)

/-! ### Cell and edge bookkeeping -/

theorem mem_cellsUpTo {R i j a b : Nat} :
    (a, b) ∈ cellsUpTo R i j ↔ (a < i ∧ b < R) ∨ (a = i ∧ b < j) := by
  simp only [cellsUpTo, List.mem_append, List.mem_flatMap, List.mem_map, List.mem_range,
    Prod.mk.injEq]
  constructor
  · rintro (⟨a', ha', b', hb', rfl, rfl⟩ | ⟨b', hb', rfl, rfl⟩)
    · exact Or.inl ⟨ha', hb'⟩
    · exact Or.inr ⟨rfl, hb'⟩
  · rintro (⟨ha, hb⟩ | ⟨rfl, hb⟩)
    · exact Or.inl ⟨a, ha, b, hb, rfl, rfl⟩
    · exact Or.inr ⟨b, hb, rfl, rfl⟩

theorem cellsUpTo_length (R : Nat) : ∀ (i j : Nat), (cellsUpTo R i j).length = i * R + j := by
  have aux : ∀ i : Nat,
      ((List.range i).flatMap (fun a => (List.range R).map (fun b => (a, b)))).length = i * R := by
    intro i
    induction i with
    | zero => simp
    | succ i ih =>
        rw [List.range_succ]
        simp [ih, Nat.succ_mul]
  intro i j
  simp [cellsUpTo, aux i]

theorem cellsUpTo_succ_j (R i j : Nat) : cellsUpTo R i (j + 1) = cellsUpTo R i j ++ [(i, j)] := by
  simp [cellsUpTo, List.range_succ]

theorem cellsUpTo_row_end (R i : Nat) : cellsUpTo R (i + 1) 0 = cellsUpTo R i R := by
  simp [cellsUpTo, List.range_succ]

theorem edgesUpTo_succ_j (R i j : Nat) :
    edgesUpTo R i (j + 1) = edgesUpTo R i j ++ cellEdges (i, j) := by
  simp [edgesUpTo, cellsUpTo_succ_j]

theorem edgesUpTo_row_end (R i : Nat) : edgesUpTo R (i + 1) 0 = edgesUpTo R i R := by
  simp [edgesUpTo, cellsUpTo_row_end]

theorem cellId_lt_of_mem {R i j : Nat} {c : Nat × Nat}
    (h : c ∈ cellsUpTo R i j) (hj : j ≤ R) : cellId R c < i * R + j := by
  obtain ⟨a, b⟩ := c
  rcases mem_cellsUpTo.mp h with ⟨ha, hb⟩ | ⟨rfl, hb⟩
  · have h1 : a * R + b < (a + 1) * R := by
      simp [Nat.succ_mul]
      omega
    have h2 : (a + 1) * R ≤ i * R := Nat.mul_le_mul_right R ha
    simp only [cellId]
    omega
  · simp only [cellId]
    omega

theorem cellId_inj {R a b a' b' : Nat} (hb : b < R) (hb' : b' < R)
    (h : cellId R (a, b) = cellId R (a', b')) : a = a' ∧ b = b' := by
  simp only [cellId] at h
  rcases Nat.lt_trichotomy a a' with hlt | rfl | hgt
  · exfalso
    have h1 : a * R + b < (a + 1) * R := by simp [Nat.succ_mul]; omega
    have h2 : (a + 1) * R ≤ a' * R := Nat.mul_le_mul_right R hlt
    omega
  · constructor
    · rfl
    · omega
  · exfalso
    have h1 : a' * R + b' < (a' + 1) * R := by simp [Nat.succ_mul]; omega
    have h2 : (a' + 1) * R ≤ a * R := Nat.mul_le_mul_right R hgt
    omega

/-! ### Loop-step lemmas -/

/-- Evaluation of `add_body` on the sphere branch with an explicit id. -/
theorem add_body_sphere (cfg : BodyCfg) (k : String) (s : ServerState)
    (hid : cfg.id = some k) (hty : cfg.type = some "sphere") :
    add_body cfg s =
      (.ok k,
       { s with
         heap := heapUpdate s.nextEngineId (fun b => { b with metadata := cfg.metadata.getD [] })
                   (s.heap ++ [(s.nextEngineId,
                     { engineId := s.nextEngineId, shape := .sphere (cfg.radius.getD 1.0),
                       mass := cfg.mass.getD 1.0,
                       position := cfg.position.getD [0.0, 0.0, 0.0] })]),
         sceneBodyIds := s.sceneBodyIds ++ [s.nextEngineId],
         nextEngineId := s.nextEngineId + 1,
         bodies := dictInsert k s.nextEngineId s.bodies }) := by
  simp [add_body, hid, hty]

/-- Evaluation of `add_constraint` on the spring branch with both endpoints
live and no explicit id. -/
theorem add_constraint_spring (cfg : ConstraintCfg) (s : ServerState) (ea eb : Nat)
    (hid : cfg.id = none) (hty : cfg.type = some "spring")
    (ha : cfg.body_a.bind (fun a => dictLookup a s.bodies) = some ea)
    (hb : cfg.body_b.bind (fun b => dictLookup b s.bodies) = some eb) :
    add_constraint cfg s =
      (.ok ("constraint_" ++ Nat.repr s.constraints.length),
       { s with
         sceneSprings := s.sceneSprings ++
           [{ bodyA := ea, bodyB := eb, stiffness := cfg.stiffness.getD 100.0,
              damping := cfg.damping.getD 1.0, restLength := cfg.rest_length.getD 1.0 }],
         constraints := dictInsert ("constraint_" ++ Nat.repr s.constraints.length)
           { bodyA := ea, bodyB := eb, stiffness := cfg.stiffness.getD 100.0,
             damping := cfg.damping.getD 1.0, restLength := cfg.rest_length.getD 1.0 }
           s.constraints }) := by
  simp [add_constraint, hid, hty, ha, hb]

/-- Processing the body of grid point `(i, j)` advances the canonical state
by one cell. -/
theorem add_body_surfPoint (E : SurfEqs) (u0 u1 v0 v1 : Float) (R : Nat)
    (cells : List (Nat × Nat)) (edges : List ((Nat × Nat) × (Nat × Nat))) (i j : Nat)
    (hnot : (i, j) ∉ cells)
    (hlt : ∀ c ∈ cells, cellId R c < cells.length)
    (hlen : cells.length = cellId R (i, j)) :
    add_body (surfPointCfg E u0 u1 v0 v1 R i j) (mkSurfState E u0 u1 v0 v1 R cells edges)
      = (.ok (pt i j), mkSurfState E u0 u1 v0 v1 R (cells ++ [(i, j)]) edges) := by
  have hfresh : dictLookup (pt i j) ((mkSurfState E u0 u1 v0 v1 R cells edges).bodies) = none := by
    apply dictLookup_none_of_ne
    intro p hp
    simp only [mkSurfState, List.mem_map] at hp
    obtain ⟨c, hc, rfl⟩ := hp
    intro hkey
    obtain ⟨h1, h2⟩ := pt_inj hkey
    apply hnot
    have : c = (i, j) := by
      obtain ⟨c1, c2⟩ := c
      simp at h1 h2
      simp [h1, h2]
    exact this ▸ hc
  have hheap : ∀ p ∈ (mkSurfState E u0 u1 v0 v1 R cells edges).heap,
      p.1 ≠ (mkSurfState E u0 u1 v0 v1 R cells edges).nextEngineId := by
    intro p hp
    simp only [mkSurfState, List.mem_map] at hp ⊢
    obtain ⟨c, hc, rfl⟩ := hp
    exact Nat.ne_of_lt (hlt c hc)
  rw [add_body_sphere _ (pt i j) _ rfl rfl]
  rw [heapUpdate_append_fresh _ _ _ _ hheap]
  rw [dictInsert_append_of_not_mem _ _ _ hfresh]
  simp only [mkSurfState, List.map_append, List.map_cons, List.map_nil, List.length_append,
    List.length_cons, List.length_nil]
  rw [hlen]
  rfl

/-- Processing a neighbour spring from `(a, b)` to `(c, d)` (both already
created) advances the canonical state by one edge, keyed with the sequential
fallback id. -/
theorem add_constraint_surfEdge (E : SurfEqs) (u0 u1 v0 v1 : Float) (R : Nat)
    (cells : List (Nat × Nat)) (edges : List ((Nat × Nat) × (Nat × Nat))) (a b c d : Nat)
    (hab : (a, b) ∈ cells) (hcd : (c, d) ∈ cells) :
    add_constraint (surfEdgeCfg a b c d) (mkSurfState E u0 u1 v0 v1 R cells edges)
      = (.ok (conKey edges.length),
         mkSurfState E u0 u1 v0 v1 R cells (edges ++ [((a, b), (c, d))])) := by
  have hkeyinj : ∀ (x y : Nat × Nat), pt y.1 y.2 = pt x.1 x.2 → y = x := by
    intro x y h
    obtain ⟨h1, h2⟩ := pt_inj h
    obtain ⟨y1, y2⟩ := y
    obtain ⟨x1, x2⟩ := x
    simp only at h1 h2
    simp [h1, h2]
  have ha : dictLookup (pt a b) ((mkSurfState E u0 u1 v0 v1 R cells edges).bodies)
      = some (cellId R (a, b)) := by
    have := dictLookup_map_inj (fun c => pt c.1 c.2) (cellId R) (a, b) cells
      (hkeyinj (a, b)) hab
    simpa [mkSurfState] using this
  have hb : dictLookup (pt c d) ((mkSurfState E u0 u1 v0 v1 R cells edges).bodies)
      = some (cellId R (c, d)) := by
    have := dictLookup_map_inj (fun c => pt c.1 c.2) (cellId R) (c, d) cells
      (hkeyinj (c, d)) hcd
    simpa [mkSurfState] using this
  have hclen : (mkSurfState E u0 u1 v0 v1 R cells edges).constraints.length = edges.length := by
    simp [mkSurfState, withIdx_length]
  have hfreshc : dictLookup (conKey edges.length)
      ((mkSurfState E u0 u1 v0 v1 R cells edges).constraints) = none := by
    apply dictLookup_none_of_ne
    intro p hp
    simp only [mkSurfState, List.mem_map] at hp
    obtain ⟨e, he, rfl⟩ := hp
    intro hk
    have h1 := conKey_inj hk
    have h2 := withIdx_fst_lt edges 0 e he
    omega
  rw [add_constraint_spring (surfEdgeCfg a b c d) _ (cellId R (a, b)) (cellId R (c, d))
    rfl rfl (by simpa [surfEdgeCfg] using ha) (by simpa [surfEdgeCfg] using hb)]
  rw [hclen]
  rw [show ("constraint_" ++ Nat.repr edges.length) = conKey edges.length from rfl]
  rw [dictInsert_append_of_not_mem _ _ _ hfreshc]
  simp only [mkSurfState, List.map_append, withIdx_append, List.map_cons, List.map_nil,
    Nat.zero_add, withIdx]
  rfl

theorem mignore_ok {α : Type} (x : M α) (s s' : ServerState) (a : α)
    (h : x s = (.ok a, s')) : mignore x s = (.ok (), s') := by
  simp [mignore, mbind, mpure, h]

theorem mseq_ok {α β : Type} (x : M α) (y : M β) (s s' : ServerState) (a : α)
    (h : x s = (.ok a, s')) : mseq x y s = y s' := by
  simp [mseq, mbind, h]

/-- Processing one grid cell advances the canonical state from `(i, j)` to
`(i, j+1)`. -/
theorem surfCell_step (E : SurfEqs) (u0 u1 v0 v1 : Float) (R i j : Nat)
    (hi : i < R) (hj : j < R) :
    surfCell E u0 u1 v0 v1 R i j
        (mkSurfState E u0 u1 v0 v1 R (cellsUpTo R i j) (edgesUpTo R i j))
      = (.ok (), mkSurfState E u0 u1 v0 v1 R (cellsUpTo R i (j + 1)) (edgesUpTo R i (j + 1))) := by
  have hnot : (i, j) ∉ cellsUpTo R i j := by
    intro h
    rcases mem_cellsUpTo.mp h with ⟨h1, _⟩ | ⟨_, h2⟩ <;> omega
  have hlt : ∀ c ∈ cellsUpTo R i j, cellId R c < (cellsUpTo R i j).length := by
    intro c hc
    rw [cellsUpTo_length]
    exact cellId_lt_of_mem hc hj.le
  have hlen : (cellsUpTo R i j).length = cellId R (i, j) := by
    rw [cellsUpTo_length]
    rfl
  have hbody := add_body_surfPoint E u0 u1 v0 v1 R (cellsUpTo R i j) (edgesUpTo R i j)
    i j hnot hlt hlen
  rw [← cellsUpTo_succ_j] at hbody
  have hmem_ij : (i, j) ∈ cellsUpTo R i (j + 1) :=
    mem_cellsUpTo.mpr (Or.inr ⟨rfl, by omega⟩)
  have hmem_im : 0 < i → (i - 1, j) ∈ cellsUpTo R i (j + 1) := fun h =>
    mem_cellsUpTo.mpr (Or.inl ⟨by omega, hj⟩)
  have hmem_jm : 0 < j → (i, j - 1) ∈ cellsUpTo R i (j + 1) := fun h =>
    mem_cellsUpTo.mpr (Or.inr ⟨rfl, by omega⟩)
  simp only [surfCell]
  rw [mseq_ok _ _ _ _ _ (mignore_ok _ _ _ _ hbody)]
  by_cases hi0 : 0 < i <;> by_cases hj0 : 0 < j
  · have he1 := add_constraint_surfEdge E u0 u1 v0 v1 R (cellsUpTo R i (j + 1))
      (edgesUpTo R i j) (i - 1) j i j (hmem_im hi0) hmem_ij
    have he2 := add_constraint_surfEdge E u0 u1 v0 v1 R (cellsUpTo R i (j + 1))
      (edgesUpTo R i j ++ [((i - 1, j), (i, j))]) i (j - 1) i j (hmem_jm hj0) hmem_ij
    simp only [hi0, hj0, if_true]
    rw [mseq_ok _ _ _ _ _ (mignore_ok _ _ _ _ he1), mignore_ok _ _ _ _ he2]
    rw [edgesUpTo_succ_j]
    simp [cellEdges, hi0, hj0]
  · have he1 := add_constraint_surfEdge E u0 u1 v0 v1 R (cellsUpTo R i (j + 1))
      (edgesUpTo R i j) (i - 1) j i j (hmem_im hi0) hmem_ij
    simp only [hi0, hj0, if_true, if_false]
    rw [mseq_ok _ _ _ _ _ (mignore_ok _ _ _ _ he1)]
    rw [edgesUpTo_succ_j]
    simp [mpure, cellEdges, hi0, hj0]
  · have he2 := add_constraint_surfEdge E u0 u1 v0 v1 R (cellsUpTo R i (j + 1))
      (edgesUpTo R i j) i (j - 1) i j (hmem_jm hj0) hmem_ij
    simp only [hi0, hj0, if_true, if_false]
    rw [mseq_ok _ _ _ _ _ (by simp [mpure] : mpure () (mkSurfState E u0 u1 v0 v1 R (cellsUpTo R i (j + 1)) (edgesUpTo R i j)) = (.ok (), mkSurfState E u0 u1 v0 v1 R (cellsUpTo R i (j + 1)) (edgesUpTo R i j)))]
    rw [mignore_ok _ _ _ _ he2]
    rw [edgesUpTo_succ_j]
    simp [cellEdges, hi0, hj0]
  · simp only [hi0, hj0, if_false]
    rw [mseq_ok _ _ _ _ _ (by simp [mpure] : mpure () (mkSurfState E u0 u1 v0 v1 R (cellsUpTo R i (j + 1)) (edgesUpTo R i j)) = (.ok (), mkSurfState E u0 u1 v0 v1 R (cellsUpTo R i (j + 1)) (edgesUpTo R i j)))]
    rw [edgesUpTo_succ_j]
    simp [mpure, cellEdges, hi0, hj0]

theorem surfRow_steps (E : SurfEqs) (u0 u1 v0 v1 : Float) (R i : Nat) (hi : i < R) :
    ∀ j, j ≤ R →
      surfRow E u0 u1 v0 v1 R i j
          (mkSurfState E u0 u1 v0 v1 R (cellsUpTo R i 0) (edgesUpTo R i 0))
        = (.ok (), mkSurfState E u0 u1 v0 v1 R (cellsUpTo R i j) (edgesUpTo R i j)) := by
  intro j
  induction j with
  | zero => intro _; rfl
  | succ j ih =>
      intro h
      have hj : j < R := by omega
      simp only [surfRow]
      rw [mseq_ok _ _ _ _ _ (ih (by omega))]
      exact surfCell_step E u0 u1 v0 v1 R i j hi hj

theorem surfRows_steps (E : SurfEqs) (u0 u1 v0 v1 : Float) (R : Nat) :
    ∀ i, i ≤ R →
      surfRows E u0 u1 v0 v1 R i
          (mkSurfState E u0 u1 v0 v1 R (cellsUpTo R 0 0) (edgesUpTo R 0 0))
        = (.ok (), mkSurfState E u0 u1 v0 v1 R (cellsUpTo R i 0) (edgesUpTo R i 0)) := by
  intro i
  induction i with
  | zero => intro _; rfl
  | succ i ih =>
      intro h
      have hi : i < R := by omega
      simp only [surfRows]
      rw [mseq_ok _ _ _ _ _ (ih (by omega))]
      rw [cellsUpTo_row_end R i, edgesUpTo_row_end R i]
      exact surfRow_steps E u0 u1 v0 v1 R i hi R (Nat.le_refl R)

theorem surfRun_eq (R : Nat) :
    surfRun R = (.ok (), mkSurfState defaultEqs (-npPi) npPi (-npPi) npPi R
      (cellsUpTo R R 0) (edgesUpTo R R 0)) := by
  have h0 : s0 = mkSurfState defaultEqs (-npPi) npPi (-npPi) npPi R
      (cellsUpTo R 0 0) (edgesUpTo R 0 0) := rfl
  show create_parametric_surface { resolution := some R } s0 = _
  simp only [create_parametric_surface, Option.getD_some, Option.getD_none]
  rw [h0]
  exact surfRows_steps defaultEqs (-npPi) npPi (-npPi) npPi R R (Nat.le_refl R)

/-! ### Edge counting, shape and distinctness -/

theorem cellEdges_length (c : Nat × Nat) :
    (cellEdges c).length = (if 0 < c.1 then 1 else 0) + (if 0 < c.2 then 1 else 0) := by
  by_cases h1 : 0 < c.1 <;> by_cases h2 : 0 < c.2 <;> simp [cellEdges, h1, h2]

theorem edgesUpTo_len_j (R i : Nat) : ∀ j : Nat,
    (edgesUpTo R i j).length
      = (edgesUpTo R i 0).length + ((if 0 < i then j else 0) + (j - 1)) := by
  intro j
  induction j with
  | zero => simp
  | succ j ih =>
      rw [edgesUpTo_succ_j, List.length_append, ih, cellEdges_length]
      by_cases h1 : 0 < i <;> by_cases h2 : 0 < j <;> simp [h1, h2] <;> omega

theorem edgesUpTo_len (R : Nat) : ∀ i : Nat,
    (edgesUpTo R i 0).length = (i - 1) * R + i * (R - 1) := by
  intro i
  induction i with
  | zero => simp [edgesUpTo, cellsUpTo]
  | succ i ih =>
      rw [edgesUpTo_row_end R i, edgesUpTo_len_j R i R, ih]
      rcases Nat.eq_zero_or_pos i with rfl | hi
      · simp
      · have h1 : (i + 1) * R = i * R + R := by rw [Nat.succ_mul]
        have h2 : (i + 1) * (R - 1) = i * (R - 1) + (R - 1) := by rw [Nat.succ_mul]
        have h3 : i * R = (i - 1) * R + R := by
          rcases Nat.exists_eq_add_of_lt hi with ⟨k, rfl⟩
          simp [Nat.succ_mul]
        simp only [Nat.add_sub_cancel, h1, h2]
        rw [h3]
        simp [hi]
        omega

theorem edgesUpTo_total (R : Nat) : (edgesUpTo R R 0).length = R * (R - 1) * 2 := by
  rw [edgesUpTo_len]
  have h := Nat.mul_comm (R - 1) R
  omega

theorem mem_cellEdges {c : Nat × Nat} {e : (Nat × Nat) × (Nat × Nat)} (h : e ∈ cellEdges c) :
    (0 < c.1 ∧ e = ((c.1 - 1, c.2), c)) ∨ (0 < c.2 ∧ e = ((c.1, c.2 - 1), c)) := by
  simp only [cellEdges, List.mem_append] at h
  rcases h with h | h
  · by_cases h1 : 0 < c.1
    · simp only [h1, if_true, List.mem_singleton] at h
      exact Or.inl ⟨h1, h⟩
    · simp [h1] at h
  · by_cases h2 : 0 < c.2
    · simp only [h2, if_true, List.mem_singleton] at h
      exact Or.inr ⟨h2, h⟩
    · simp [h2] at h

theorem cellEdges_dst {c : Nat × Nat} {e : (Nat × Nat) × (Nat × Nat)} (h : e ∈ cellEdges c) :
    e.2 = c := by
  rcases mem_cellEdges h with ⟨_, rfl⟩ | ⟨_, rfl⟩ <;> rfl

theorem cellsUpTo_nodup (R : Nat) : ∀ i, (cellsUpTo R i 0).Nodup := by
  intro i
  induction i with
  | zero => simp [cellsUpTo]
  | succ i ih =>
      have hsplit : cellsUpTo R (i + 1) 0
          = cellsUpTo R i 0 ++ (List.range R).map (fun b => (i, b)) := by
        simp [cellsUpTo, List.range_succ]
      rw [hsplit, List.nodup_append]
      refine ⟨ih, ?_, ?_⟩
      · exact List.Nodup.map (fun a b hab => by simpa using hab) (List.nodup_range R)
      · intro x hx1 hx2
        obtain ⟨a, b⟩ := x
        rcases mem_cellsUpTo.mp hx1 with ⟨ha, _⟩ | ⟨_, hb⟩
        · simp only [List.mem_map, List.mem_range] at hx2
          obtain ⟨b', _, hb'⟩ := hx2
          simp only [Prod.mk.injEq] at hb'
          omega
        · omega

theorem cellsUpTo_snd_lt (R i : Nat) : ∀ c ∈ cellsUpTo R i 0, c.2 < R := by
  intro c hc
  obtain ⟨a, b⟩ := c
  rcases mem_cellsUpTo.mp hc with ⟨_, h⟩ | ⟨_, h⟩
  · exact h
  · omega

theorem edges_key_nodup (R : Nat) :
    ∀ cells : List (Nat × Nat), cells.Nodup → (∀ c ∈ cells, c.2 < R) →
      ((cells.flatMap cellEdges).map (fun e => (cellId R e.1, cellId R e.2))).Nodup := by
  intro cells
  induction cells with
  | nil => simp
  | cons c rest ih =>
      intro hnd hbnd
      simp only [List.flatMap_cons, List.map_append]
      rw [List.nodup_append]
      refine ⟨?_, ih (List.Nodup.of_cons hnd) (fun x hx => hbnd x (by simp [hx])), ?_⟩
      · obtain ⟨c1, c2⟩ := c
        have hc2 : c2 < R := hbnd (c1, c2) (by simp)
        by_cases h1 : 0 < c1 <;> by_cases h2 : 0 < c2 <;>
          simp [cellEdges, h1, h2]
        intro hAB
        have := cellId_inj (R := R) hc2 (by omega) hAB
        omega
      · intro x hx1 hx2
        simp only [List.mem_map] at hx1
        obtain ⟨e, he, rfl⟩ := hx1
        have hdst : e.2 = c := cellEdges_dst he
        simp only [List.mem_map, List.mem_flatMap] at hx2
        obtain ⟨e', ⟨c', hc', he'⟩, hkey⟩ := hx2
        have hdst' : e'.2 = c' := cellEdges_dst he'
        have hkey2 : cellId R e'.2 = cellId R e.2 := congrArg Prod.snd hkey
        rw [hdst, hdst'] at hkey2
        obtain ⟨a1, b1⟩ := c'
        obtain ⟨a2, b2⟩ := c
        have hb1 : b1 < R := hbnd (a1, b1) (by simp [hc'])
        have hb2 : b2 < R := hbnd (a2, b2) (by simp)
        obtain ⟨rfl, rfl⟩ := cellId_inj (R := R) hb1 hb2 hkey2
        exact (List.nodup_cons.mp hnd).1 hc'

/-- C6.  For every resolution `R`, the parametric surface template applied to
the empty registry succeeds and creates exactly `R*(R-1)*2` neighbour-spring
constraints (both in the registry and in the engine scene); every created
spring connects grid point `(i-1, j)` to `(i, j)` or `(i, j-1)` to `(i, j)`
for some cell `(i, j)` of the grid — never the reverse direction, never a
diagonal — and no two created springs connect the same ordered pair of
bodies (no duplicate edges).  Grid point `(i, j)` is registered under
`surface_point_<i>_<j>` with engine handle `i*R + j`. -/
theorem parametric_surface_edges (R : Nat) :
    (surfRun R).fst = .ok ()
    ∧ (surfRun R).snd.constraints.length = R * (R - 1) * 2
    ∧ (surfRun R).snd.sceneSprings.length = R * (R - 1) * 2
    ∧ (∀ i j : Nat, i < R → j < R →
        dictLookup (pt i j) (surfRun R).snd.bodies = some (cellId R (i, j)))
    ∧ (∀ sp ∈ (surfRun R).snd.sceneSprings, ∃ i j, i < R ∧ j < R ∧
        ((0 < i ∧ sp = springOf R ((i - 1, j), (i, j)))
          ∨ (0 < j ∧ sp = springOf R ((i, j - 1), (i, j)))))
    ∧ ((surfRun R).snd.sceneSprings.map (fun sp => (sp.bodyA, sp.bodyB))).Nodup := by
  rw [surfRun_eq]
  refine ⟨rfl, ?_, ?_, ?_, ?_, ?_⟩
  · simp only [mkSurfState, List.length_map, withIdx_length]
    exact edgesUpTo_total R
  · simp only [mkSurfState, List.length_map]
    exact edgesUpTo_total R
  · intro i j hi hj
    have hkeyinj : ∀ (y : Nat × Nat), pt y.1 y.2 = pt (i, j).1 (i, j).2 → y = (i, j) := by
      intro y h
      obtain ⟨h1, h2⟩ := pt_inj h
      obtain ⟨y1, y2⟩ := y
      simp only at h1 h2
      simp [h1, h2]
    have hmem : (i, j) ∈ cellsUpTo R R 0 := mem_cellsUpTo.mpr (Or.inl ⟨hi, hj⟩)
    have := dictLookup_map_inj (fun c => pt c.1 c.2) (cellId R) (i, j)
      (cellsUpTo R R 0) hkeyinj hmem
    simpa [mkSurfState] using this
  · intro sp hsp
    simp only [mkSurfState, List.mem_map] at hsp
    obtain ⟨e, he, rfl⟩ := hsp
    simp only [edgesUpTo, List.mem_flatMap] at he
    obtain ⟨c, hc, hce⟩ := he
    obtain ⟨a, b⟩ := c
    have hab : a < R ∧ b < R := by
      rcases mem_cellsUpTo.mp hc with h | ⟨_, h⟩
      · exact h
      · omega
    rcases mem_cellEdges hce with ⟨h0, rfl⟩ | ⟨h0, rfl⟩
    · exact ⟨a, b, hab.1, hab.2, Or.inl ⟨h0, rfl⟩⟩
    · exact ⟨a, b, hab.1, hab.2, Or.inr ⟨h0, rfl⟩⟩
  · have h := edges_key_nodup R (cellsUpTo R R 0) (cellsUpTo_nodup R R) (cellsUpTo_snd_lt R R)
    simpa [mkSurfState, edgesUpTo, List.map_map, springOf, Function.comp] using h

/-- Witness for C6 at resolution 3: 12 constraints, and the centre point
`(1, 2)` is registered with engine handle 5. -/
theorem parametric_surface_edges_witness :
    (surfRun 3).snd.constraints.length = 12
    ∧ ((1 : Nat) < 3 ∧ (2 : Nat) < 3
        ∧ dictLookup (pt 1 2) (surfRun 3).snd.bodies = some (cellId 3 (1, 2))) := by
  have h := parametric_surface_edges 3
  exact ⟨h.2.1.trans (by decide), by decide, by decide, h.2.2.2.1 1 2 (by decide) (by decide)⟩
